import Mathlib

/-!
Verification development for the skimath repository.

Shallow embedding conventions:
* JavaScript `number` arithmetic is modelled exactly over `ℚ`; wall-clock
  milliseconds (`Date.now()`) are modelled as `ℤ`.
* External library functions that the core calls (`Math.sin`, `Math.sqrt`,
  the simplex-noise based `getTerrainHeight`, and the irrational constant
  `PLAYER.MAX_TURN_ANGLE = Math.PI / 4`) are abstracted into a parameter
  record `Env`; theorems that need facts about them take those facts as
  hypotheses which are discharged on concrete rational instances.
* `Math.random()` draws are modelled by an explicit stream (list) of
  rationals in `[0,1)` consumed in program order.
* Purely visual state (Three.js meshes, rotations, the randomized
  crash/tumble fall orientation `crashRotation`, materials, audio, DOM)
  is omitted: it is never read back by the movement/collision/state core.
-/

/-- External functions and constants the core depends on:
`sinq` models `Math.sin`, `sqrtq` models `Math.sqrt`,
`terrain z x` models `getTerrainHeight(z, x)` (simplex-noise based),
`maxTurnAngle` models `PLAYER.MAX_TURN_ANGLE = Math.PI / 4`. -/
structure Env where
  sinq : ℚ → ℚ
  sqrtq : ℚ → ℚ
  terrain : ℚ → ℚ → ℚ
  maxTurnAngle : ℚ

/-- A trivial rational instance of the external functions, used to
evaluate the model on concrete inputs. -/
def envZero : Env :=
  { sinq := fun _ => 0
    sqrtq := fun _ => 0
    terrain := fun _ _ => 0
    maxTurnAngle := 157/200 }

namespace MathUtils

/-- `THREE.MathUtils.clamp(value, min, max) = Math.max(min, Math.min(max, value))`. -/
def clampQ (value lo hi : ℚ) : ℚ := max lo (min hi value)

/-- `THREE.MathUtils.lerp(x, y, t) = (1 - t) * x + t * y`. -/
def lerpQ (x y t : ℚ) : ℚ := (1 - t) * x + t * y

/-- `randomFloatInRange(min, max) = Math.random() * (max - min) + min`,
with the `Math.random()` draw `r` made explicit. -/
def randomFloatInRange (r lo hi : ℚ) : ℚ := r * (hi - lo) + lo

/-- `applyScorePenalty(currentScore, penalty) = Math.max(0, currentScore - penalty)`. -/
def applyScorePenalty (currentScore penalty : ℚ) : ℚ := max 0 (currentScore - penalty)

/-- `distance2D(x1, z1, x2, z2) = Math.sqrt(dx*dx + dz*dz)`, with `Math.sqrt`
abstracted as `sq`. -/
def distance2D (sq : ℚ → ℚ) (x1 z1 x2 z2 : ℚ) : ℚ :=
  sq ((x2 - x1) * (x2 - x1) + (z2 - z1) * (z2 - z1))

/-- `Math.round` on a rational: round half away from zero matches JS
`Math.round` only for nonnegative arguments; all arguments in this model
are nonnegative scores, where `Math.round x = ⌊x + 0.5⌋`. -/
def roundQ (x : ℚ) : ℤ := ⌊x + 1/2⌋

end MathUtils

/-! ## GameConfig constants (src/config/GameConfig.ts) -/

namespace PLAYER

def BASE_SPEED : ℚ := 1/20
def GRAVITY : ℚ := 1/200
def MAX_SPEED : ℚ := 2/5
def COLLISION_RADIUS : ℚ := 1
def START_X : ℚ := 0
def START_Z : ℚ := 0
def TURN_RATE : ℚ := 3/1000
def STRAIGHT_SPEED_BONUS : ℚ := 51/50
def MIN_TURN_SPEED_FACTOR : ℚ := 2/5
def TURN_SHARPNESS_PENALTY : ℚ := 1/125
def ANGULAR_FRICTION : ℚ := 17/20

end PLAYER

namespace CRASH

def CRASH_DURATION : ℤ := 120
def TUMBLE_DURATION : ℤ := 60
def RECOVERY_OFFSET_CRASH : ℚ := 5

end CRASH

namespace GATES

def TOTAL_GATES : ℕ := 10
def GATE_WIDTH : ℚ := 8
def GATE_SPACING : ℚ := 40
def START_Z : ℚ := -30
def POLE_SPACING : ℚ := 1/2

end GATES

namespace COLLISION

def PLAYER_RADIUS : ℚ := 2/5
def POLE_RADIUS : ℚ := 1/20
def GRAZE_DISTANCE : ℚ := 1/4

end COLLISION

namespace SCORING

def BASE_POINTS : ℚ := 100
def WRONG_ANSWER_PENALTY : ℚ := 50
def CRASH_PENALTY : ℚ := 100
def TUMBLE_PENALTY : ℚ := 25

end SCORING

namespace TIME_PENALTIES

def WRONG_ANSWER : ℤ := 3000
def CRASH : ℤ := 5000
def TUMBLE : ℤ := 2000

end TIME_PENALTIES

namespace TERRAIN

def SKI_PATH_WIDTH : ℚ := 25

end TERRAIN

/-! ## SkierController (src/game/SkierController.ts) -/

/-- Key codes consumed by `handleKeyDown`/`handleKeyUp`. The source switches
on `e.code`; `'ArrowLeft' | 'KeyA'` collapse to `arrowLeft`, likewise for the
other directions, and every other code falls through the `switch` (but still
reaches the `hasStarted` assignment), modelled by `other`. -/
inductive Key where
  | arrowLeft
  | arrowRight
  | arrowUp
  | arrowDown
  | other
deriving DecidableEq, Repr

/-- Mutable state of `SkierController`. The Three.js mesh (a pure render
target), and the randomized `crashRotation` read only by mesh animation,
are omitted; `posY`/`velY` mirror `_position.y`/`velocity.y`. -/
structure Skier where
  posX : ℚ
  posY : ℚ
  posZ : ℚ
  velX : ℚ
  velY : ℚ
  velZ : ℚ
  turnAngle : ℚ
  angularVelocity : ℚ
  moveLeft : Bool
  moveRight : Bool
  moveForward : Bool
  moveBackward : Bool
  hasStarted : Bool
  isCrashed : Bool
  isTumbling : Bool
  crashTimer : ℤ
  tumbleTimer : ℤ
  recoveryPosition : Option (ℚ × ℚ × ℚ)
deriving DecidableEq, Repr

namespace Skier

/-- Constructor state of `SkierController`: position at
`(START_POSITION.x, getTerrainHeight(z, x), START_POSITION.z)`, all other
fields at their field initializers. -/
def init (env : Env) : Skier :=
  { posX := PLAYER.START_X
    posY := env.terrain PLAYER.START_Z PLAYER.START_X
    posZ := PLAYER.START_Z
    velX := 0, velY := 0, velZ := 0
    turnAngle := 0, angularVelocity := 0
    moveLeft := false, moveRight := false
    moveForward := false, moveBackward := false
    hasStarted := false
    isCrashed := false, isTumbling := false
    crashTimer := 0, tumbleTimer := 0
    recoveryPosition := none }

/-- `SkierController.reset()`. Note the source does not reset
`crashTimer`, `tumbleTimer` or `recoveryPosition`. -/
def reset (env : Env) (s : Skier) : Skier :=
  { s with
    posX := PLAYER.START_X
    posY := env.terrain PLAYER.START_Z PLAYER.START_X
    posZ := PLAYER.START_Z
    velX := 0, velY := 0, velZ := 0
    moveLeft := false, moveRight := false
    moveForward := false, moveBackward := false
    hasStarted := false
    isCrashed := false, isTumbling := false
    turnAngle := 0, angularVelocity := 0 }

/-- `SkierController.handleKeyDown(code)`: the comment in the source reads
"Any key press starts the race" and `hasStarted` is set before the switch. -/
def handleKeyDown (k : Key) (s : Skier) : Skier :=
  let s := { s with hasStarted := true }
  match k with
  | .arrowLeft => { s with moveLeft := true, moveRight := false }
  | .arrowRight => { s with moveRight := true, moveLeft := false }
  | .arrowUp => { s with moveForward := true, moveBackward := false }
  | .arrowDown => { s with moveBackward := true, moveForward := false }
  | .other => s

/-- `SkierController.handleKeyUp(code)`. -/
def handleKeyUp (k : Key) (s : Skier) : Skier :=
  match k with
  | .arrowLeft => { s with moveLeft := false }
  | .arrowRight => { s with moveRight := false }
  | .arrowUp => { s with moveForward := false }
  | .arrowDown => { s with moveBackward := false }
  | .other => s

/-- `SkierController.clearInput()`. -/
def clearInput (s : Skier) : Skier :=
  { s with moveLeft := false, moveRight := false
           moveForward := false, moveBackward := false }

/-- `SkierController.recoverFromCrash()`. -/
def recoverFromCrash (env : Env) (s : Skier) : Skier :=
  let s :=
    match s.recoveryPosition with
    | some rp => { s with posX := 0, posZ := rp.2.2, recoveryPosition := none }
    | none => s
  { s with
    posY := env.terrain s.posZ s.posX
    velX := 0, velY := 0, velZ := -1/10
    turnAngle := 0
    angularVelocity := 0
    hasStarted := true }

/-- `SkierController.updateCrashState()` (mesh-rotation animation omitted). -/
def updateCrashState (env : Env) (s : Skier) : Skier :=
  if s.isCrashed then
    let t := s.crashTimer - 1
    if t ≤ 0 then
      recoverFromCrash env { s with crashTimer := t, isCrashed := false }
    else
      { s with crashTimer := t }
  else if s.isTumbling then
    let t := s.tumbleTimer - 1
    let vz := s.velZ - PLAYER.GRAVITY * (3/10)
    let s := { s with tumbleTimer := t, velZ := vz, posZ := s.posZ + vz }
    if t ≤ 0 then { s with isTumbling := false } else s
  else s

/-- `SkierController.update()`: the per-frame kinematics step
(lines 147-254 of the source). -/
def update (env : Env) (s : Skier) : Skier :=
  if !s.hasStarted then s
  else if s.isCrashed || s.isTumbling then updateCrashState env s
  else
    let currentSpeed := |s.velZ|
    let speedFrac := min 1 (currentSpeed / PLAYER.MAX_SPEED)
    let effectiveTurnRate := PLAYER.TURN_RATE * (3 - 2 * speedFrac)
    let av0 :=
      if s.moveLeft then s.angularVelocity + effectiveTurnRate
      else if s.moveRight then s.angularVelocity - effectiveTurnRate
      else s.angularVelocity
    let av := av0 * PLAYER.ANGULAR_FRICTION
    let ta0 := s.turnAngle + av
    let ta := MathUtils.clampQ ta0 (-env.maxTurnAngle) env.maxTurnAngle
    let angleFrac := |ta| / env.maxTurnAngle
    let angleSpeedFactor :=
      MathUtils.lerpQ PLAYER.STRAIGHT_SPEED_BONUS PLAYER.MIN_TURN_SPEED_FACTOR angleFrac
    let turnSharpness := |av|
    let sharpnessPenalty := 1 - turnSharpness * PLAYER.TURN_SHARPNESS_PENALTY * 5
    let speedFactor := angleSpeedFactor * max (7/10) sharpnessPenalty
    let vz0 := s.velZ - PLAYER.GRAVITY * speedFactor
    let vz1 := if s.moveForward then vz0 - PLAYER.BASE_SPEED * (12/100) * speedFactor else vz0
    let vz2 := if s.moveBackward then vz1 * (92/100) else vz1
    let effectiveMaxSpeed := PLAYER.MAX_SPEED * speedFactor
    let vz := MathUtils.clampQ vz2 (-effectiveMaxSpeed) (PLAYER.MAX_SPEED * (15/100))
    let vx := -(env.sinq ta) * |vz|
    let pz := s.posZ + vz
    let px0 := s.posX + vx
    let px := MathUtils.clampQ px0 (-TERRAIN.SKI_PATH_WIDTH) TERRAIN.SKI_PATH_WIDTH
    { s with
      angularVelocity := av
      turnAngle := ta
      velZ := vz
      velX := vx
      posZ := pz
      posX := px
      posY := env.terrain pz px }

/-- `SkierController.applyCollision(pushBack)`: `pushBack` carries the
`(x, z)` components of the pushback vector. -/
def applyCollision (push : ℚ × ℚ) (s : Skier) : Skier :=
  { s with
    posX := s.posX + push.1
    posZ := s.posZ + push.2
    velX := s.velX * (3/10)
    velZ := s.velZ * (1/2) }

/-- `SkierController.tumble()` (randomized `crashRotation` omitted: it is
read only by the mesh wobble animation). -/
def tumble (s : Skier) : Skier :=
  if s.isCrashed || s.isTumbling then s
  else
    { s with
      isTumbling := true
      tumbleTimer := CRASH.TUMBLE_DURATION
      velZ := s.velZ * (3/10) }

/-- `SkierController.crash(gateZ?)` (randomized `crashRotation` omitted). -/
def crash (gateZ : Option ℚ) (s : Skier) : Skier :=
  if s.isCrashed then s
  else
    let s := { s with
      isCrashed := true
      isTumbling := false
      crashTimer := CRASH.CRASH_DURATION
      velX := 0, velY := 0, velZ := 0 }
    match gateZ with
    | some z =>
        { s with recoveryPosition := some (0, s.posY, z - CRASH.RECOVERY_OFFSET_CRASH) }
    | none => s

end Skier

/-! ## Obstacles: SpatialGrid (src/game/SpatialGrid.ts) and
ObstacleManager (src/game/ObstacleManager.ts) -/

inductive ObstacleKind where
  | tree
  | rock
deriving DecidableEq, Repr

/-- An obstacle as stored by `ObstacleManager.addObstacle`. -/
structure Obstacle where
  posX : ℚ
  posY : ℚ
  posZ : ℚ
  radius : ℚ
  kind : ObstacleKind
deriving DecidableEq, Repr

namespace SpatialGrid

/-- `GRID_CELL_SIZE_Z = GRID_CELL_SIZE_X = 50` (ObstacleManager.ts). -/
def CELL_SIZE_Z : ℚ := 50
def CELL_SIZE_X : ℚ := 50

/-- The `cells` map, read only through `cells.get(key)`: modelled as a
function from the integer cell key `(cellX, cellZ)` to the cell's list. -/
def Cells : Type := ℤ × ℤ → List Obstacle

def emptyCells : Cells := fun _ => []

/-- The integer range `[lo..hi]` of cell coordinates. -/
def cellRange (lo hi : ℤ) : List ℤ :=
  (List.range (hi - lo + 1).toNat).map (fun n => lo + (n : ℤ))

/-- `SpatialGrid.insert(object)`: register the object in every cell
overlapped by its bounding circle (`cells.get(key)!.push(object)`). -/
def insert (cells : Cells) (o : Obstacle) : Cells :=
  let minCellX := ⌊(o.posX - o.radius) / CELL_SIZE_X⌋
  let maxCellX := ⌊(o.posX + o.radius) / CELL_SIZE_X⌋
  let minCellZ := ⌊(o.posZ - o.radius) / CELL_SIZE_Z⌋
  let maxCellZ := ⌊(o.posZ + o.radius) / CELL_SIZE_Z⌋
  fun key =>
    if key.1 ∈ cellRange minCellX maxCellX ∧ key.2 ∈ cellRange minCellZ maxCellZ then
      cells key ++ [o]
    else
      cells key

/-- The `seen : Set` deduplication of `query`: keep each object's first
occurrence, in order. -/
def dedupFirstGo (seen : List Obstacle) : List Obstacle → List Obstacle
  | [] => []
  | o :: rest =>
    if o ∈ seen then dedupFirstGo seen rest
    else o :: dedupFirstGo (o :: seen) rest

def dedupFirst (l : List Obstacle) : List Obstacle := dedupFirstGo [] l

/-- `SpatialGrid.query(x, z, queryRadius)`: deduplicated concatenation of
the cells overlapped by the query circle, in cell-scan order. -/
def query (cells : Cells) (x z queryRadius : ℚ) : List Obstacle :=
  let minCellX := ⌊(x - queryRadius) / CELL_SIZE_X⌋
  let maxCellX := ⌊(x + queryRadius) / CELL_SIZE_X⌋
  let minCellZ := ⌊(z - queryRadius) / CELL_SIZE_Z⌋
  let maxCellZ := ⌊(z + queryRadius) / CELL_SIZE_Z⌋
  dedupFirst <|
    (cellRange minCellX maxCellX).flatMap fun cellX =>
      (cellRange minCellZ maxCellZ).flatMap fun cellZ =>
        cells (cellX, cellZ)

end SpatialGrid

/-- The state of `ObstacleManager`: the obstacle list and the spatial grid. -/
structure ObstacleManager where
  obstacles : List Obstacle
  grid : SpatialGrid.Cells

namespace ObstacleManager

def empty : ObstacleManager := { obstacles := [], grid := SpatialGrid.emptyCells }

/-- `ObstacleManager.addObstacle(x, z, radius, type)`; the elevation is
`getTerrainHeight(z)` with the `x` argument defaulted to `0`. -/
def addObstacle (env : Env) (x z radius : ℚ) (kind : ObstacleKind)
    (om : ObstacleManager) : ObstacleManager :=
  let o : Obstacle := { posX := x, posY := env.terrain z 0, posZ := z
                        radius := radius, kind := kind }
  { obstacles := om.obstacles ++ [o], grid := SpatialGrid.insert om.grid o }

/-- Build an `ObstacleManager` by `addObstacle` calls in placement order. -/
def build (env : Env) (placements : List (ℚ × ℚ × ℚ × ObstacleKind)) : ObstacleManager :=
  placements.foldl (fun om p => addObstacle env p.1 p.2.1 p.2.2.1 p.2.2.2 om) empty

/-- The inner loop of `ObstacleManager.checkCollision`: first obstacle of
the query result whose distance is below `playerRadius + obstacle.radius`
produces the pushback `(dx/dist*overlap, dz/dist*overlap)`. -/
def collideScan (env : Env) (px pz pr : ℚ) : List Obstacle → Option (ℚ × ℚ)
  | [] => none
  | o :: rest =>
    let dx := px - o.posX
    let dz := pz - o.posZ
    let dist := MathUtils.distance2D env.sqrtq px pz o.posX o.posZ
    let minDistance := pr + o.radius
    if dist < minDistance then
      let overlap := minDistance - dist
      some (dx / dist * overlap, dz / dist * overlap)
    else
      collideScan env px pz pr rest

/-- `ObstacleManager.checkCollision(playerPosition, playerRadius)`.
The source mutates only the module-level reusable result vector; the
obstacle list and grid are untouched, so the state is not returned. -/
def checkCollision (env : Env) (om : ObstacleManager) (px pz : ℚ)
    (pr : ℚ := PLAYER.COLLISION_RADIUS) : Option (ℚ × ℚ) :=
  let queryRadius := pr + 3
  let nearbyObstacles := SpatialGrid.query om.grid px pz queryRadius
  collideScan env px pz pr nearbyObstacles

end ObstacleManager

/-! ## GateManager (src/game/GateManager.ts) -/

inductive GateColor where
  | red
  | blue
deriving DecidableEq, Repr

/-- A gate record (the four Three.js groups/meshes omitted; `posY` is the
terrain height stored in `position.y`). -/
structure Gate where
  index : ℕ
  posX : ℚ
  posY : ℚ
  posZ : ℚ
  passed : Bool
  triggered : Bool
  color : GateColor
deriving DecidableEq, Repr

inductive FlagCollisionType where
  | noHit
  | graze
  | tumble
  | crash
deriving DecidableEq, Repr

/-- `FlagCollisionResult` (`'none'` is rendered as `noHit`). -/
structure FlagCollisionResult where
  type : FlagCollisionType
  gate : Option Gate
deriving DecidableEq, Repr

namespace GateManager

/-- One `Math.random()` draw from the explicit stream (the stream is
never exhausted in the source; a drained stream yields `0`). -/
def draw : List ℚ → ℚ × List ℚ
  | [] => (0, [])
  | r :: rest => (r, rest)

/-- `GateManager.isPositionClear(x, z, halfWidth, obstacles)`. -/
def isPositionClear (x z halfWidth : ℚ) (obstacles : List Obstacle) : Bool :=
  obstacles.all fun o =>
    let obsRadius := o.radius + 3/2
    decide (|o.posZ - z| > 10) ||
      !(decide (o.posX + obsRadius > x - halfWidth) && decide (o.posX - obsRadius < x + halfWidth))

/-- The offset-probing loop of `findClearPosition` (`offset = 2, 4, …, 20`). -/
def findClearGo (preferredX z halfWidth direction : ℚ) (obstacles : List Obstacle) :
    List ℚ → ℚ
  | [] => 0
  | offset :: rest =>
    let testX := preferredX + direction * offset
    if |testX| > 25 then findClearGo preferredX z halfWidth direction obstacles rest
    else if isPositionClear testX z halfWidth obstacles then testX
    else findClearGo preferredX z halfWidth direction obstacles rest

/-- `GateManager.findClearPosition(preferredX, z)`; `obstacleManager` is
`none` when `setObstacleManager` was never called. -/
def findClearPosition (obstacleManager : Option (List Obstacle)) (preferredX z : ℚ) : ℚ :=
  match obstacleManager with
  | none => preferredX
  | some obstacles =>
    let gateHalfWidth := GATES.GATE_WIDTH / 2 + 2
    if isPositionClear preferredX z gateHalfWidth obstacles then preferredX
    else
      let direction : ℚ := if preferredX > 0 then -1 else 1
      findClearGo preferredX z gateHalfWidth direction obstacles
        [2, 4, 6, 8, 10, 12, 14, 16, 18, 20]

/-- `GateManager.createGate(x, z, index, color)` (meshes omitted). -/
def createGate (env : Env) (x z : ℚ) (index : ℕ) (color : GateColor) : Gate :=
  { index := index, posX := x, posY := env.terrain z x, posZ := z
    passed := false, triggered := false, color := color }

/-- The loop body of `GateManager.createGates`, consuming two random draws
per gate (spacing variation, then base X). -/
def createGatesGo (env : Env) (obstacleManager : Option (List Obstacle)) :
    ℕ → ℕ → ℚ → List ℚ → List Gate
  | 0, _, _, _ => []
  | rem + 1, i, currentZ, stream =>
    let d1 := draw stream
    let spacingVariation := MathUtils.randomFloatInRange d1.1 (3/4) (5/4)
    let z := currentZ - GATES.GATE_SPACING * spacingVariation
    let d2 := draw d1.2
    let baseX := (if i % 2 = 0 then (-1 : ℚ) else 1) * MathUtils.randomFloatInRange d2.1 4 12
    let color : GateColor := if i % 2 = 0 then .red else .blue
    let clearX := findClearPosition obstacleManager baseX z
    createGate env clearX z i color :: createGatesGo env obstacleManager rem (i + 1) z d2.2

/-- `GateManager.createGates()`, parameterized by the `Math.random()` stream. -/
def createGates (env : Env) (obstacleManager : Option (List Obstacle))
    (stream : List ℚ) : List Gate :=
  createGatesGo env obstacleManager GATES.TOTAL_GATES 0 GATES.START_Z stream

/-- `_finishLineZ` as computed by `createFinishArea`:
`startZ - totalGates * gateSpacing - 20`. -/
def finishLineZ : ℚ := GATES.START_Z - (GATES.TOTAL_GATES : ℚ) * GATES.GATE_SPACING - 20

/-- `GateManager.reset()` restores every gate to un-triggered, un-passed. -/
def resetGates (gates : List Gate) : List Gate :=
  gates.map fun g => { g with passed := false, triggered := false }

/-- `GateManager.checkCollision(playerPosition)`: scan for the first
non-passed, non-triggered gate in the trigger window, mark it triggered
and return its index (`none` models the `-1` return). -/
def checkCollisionGo (px pz : ℚ) : List Gate → Option ℕ × List Gate
  | [] => (none, [])
  | g :: rest =>
    if g.passed || g.triggered then
      let r := checkCollisionGo px pz rest
      (r.1, g :: r.2)
    else
      let hasReachedGate := decide (pz ≤ g.posZ)
      let justPassed := decide (pz ≥ g.posZ - 3)
      let distanceX := |px - g.posX|
      if hasReachedGate && justPassed && decide (distanceX < GATES.GATE_WIDTH / 2 + 1) then
        (some g.index, { g with triggered := true } :: rest)
      else
        let r := checkCollisionGo px pz rest
        (r.1, g :: r.2)

def checkCollision (px pz : ℚ) (gates : List Gate) : Option ℕ × List Gate :=
  checkCollisionGo px pz gates

/-- The per-flag (pole-pair) classification inside `checkFlagCollision`:
crash check, then banner (between-poles) check, then graze check. -/
def checkFlag (px baseX : ℚ) (isLeft : Bool) : Option FlagCollisionType :=
  let innerPoleX := baseX
  let outerPoleX := if isLeft then innerPoleX - GATES.POLE_SPACING
                    else innerPoleX + GATES.POLE_SPACING
  let distToInner := |px - innerPoleX|
  let distToOuter := |px - outerPoleX|
  let hitRadius := COLLISION.PLAYER_RADIUS + COLLISION.POLE_RADIUS
  if distToInner < hitRadius ∨ distToOuter < hitRadius then
    some .crash
  else
    let minPoleX := min innerPoleX outerPoleX
    let maxPoleX := max innerPoleX outerPoleX
    if px > minPoleX ∧ px < maxPoleX then
      some .tumble
    else if distToInner < hitRadius + COLLISION.GRAZE_DISTANCE ∨
        distToOuter < hitRadius + COLLISION.GRAZE_DISTANCE then
      some .graze
    else
      none

/-- `GateManager.checkFlagCollision(playerPosition)`: gates outside the
`|Δz| ≤ 1.5` window are skipped; within a gate the left flag is evaluated
before the right flag; the first qualifying pole-pair returns. -/
def checkFlagCollisionGo (px pz : ℚ) : List Gate → FlagCollisionResult
  | [] => { type := .noHit, gate := none }
  | g :: rest =>
    if |pz - g.posZ| > 3/2 then checkFlagCollisionGo px pz rest
    else
      match checkFlag px (g.posX - GATES.GATE_WIDTH / 2) true with
      | some t => { type := t, gate := some g }
      | none =>
        match checkFlag px (g.posX + GATES.GATE_WIDTH / 2) false with
        | some t => { type := t, gate := some g }
        | none => checkFlagCollisionGo px pz rest

def checkFlagCollision (px pz : ℚ) (gates : List Gate) : FlagCollisionResult :=
  checkFlagCollisionGo px pz gates

/-- `GateManager.passGate()`: mark the first triggered-but-not-passed gate
as passed; the boolean reports whether one was found. -/
def passGateGo : List Gate → List Gate × Bool
  | [] => ([], false)
  | g :: rest =>
    if g.triggered && !g.passed then ({ g with passed := true } :: rest, true)
    else
      let r := passGateGo rest
      (g :: r.1, r.2)

/-- `GateManager.checkFinishLine(playerPosition)`. -/
def checkFinishLine (pz : ℚ) : Bool :=
  decide (pz ≤ finishLineZ + 5)

end GateManager

/-! ## Game (the unnamed Game.ts: RaceController) -/

/-- `GameState` from types.ts. -/
inductive GState where
  | menu
  | playing
  | question
  | paused
  | ended
deriving DecidableEq, Repr

/-- `Difficulty` from types.ts. -/
inductive Difficulty where
  | easy
  | medium
  | hard
  | expert
deriving DecidableEq, Repr

/-- `SCORING.DIFFICULTY_MULTIPLIERS`. -/
def Difficulty.multiplier : Difficulty → ℚ
  | .easy => 1
  | .medium => 3/2
  | .hard => 2
  | .expert => 3

/-- The state of `Game` together with its owned managers (rendering,
audio, UI and the question content are external and omitted). -/
structure GameS where
  gameState : GState
  score : ℚ
  correctAnswers : ℕ
  totalQuestions : ℕ
  startTime : ℤ
  elapsedTime : ℤ
  difficulty : Difficulty
  isPaused : Bool
  player : Skier
  gates : List Gate
  gatesPassed : ℕ
  om : ObstacleManager

/-- Input events driving the simulation: keyboard edges, frame ticks with
their `Date.now()` reading, race starts and question resolutions. -/
inductive GEvent where
  | startGame (difficulty : Difficulty) (now : ℤ)
  | keyDown (k : Key)
  | keyUp (k : Key)
  | frame (now : ℤ)
  | answer (isCorrect : Bool)
deriving DecidableEq

namespace Game

/-- `Game.calculatePoints()`: `Math.round(BASE_POINTS * multiplier)`. -/
def calculatePoints (d : Difficulty) : ℚ :=
  ((MathUtils.roundQ (SCORING.BASE_POINTS * d.multiplier) : ℤ) : ℚ)

/-- State after `new Game(...)` and `init()`: obstacles placed in scene
order, then gates created from the remaining random stream (the scene
passes its obstacle manager to the gate manager before `gateManager.init()`). -/
def init (env : Env) (placements : List (ℚ × ℚ × ℚ × ObstacleKind))
    (stream : List ℚ) : GameS :=
  let om := ObstacleManager.build env placements
  { gameState := .menu, score := 0, correctAnswers := 0, totalQuestions := 0
    startTime := 0, elapsedTime := 0, difficulty := .medium, isPaused := false
    player := Skier.init env
    gates := GateManager.createGates env (some om.obstacles) stream
    gatesPassed := 0, om := om }

/-- `Game.startGame(difficulty)` (UI/audio calls omitted). Note `isPaused`
is not reset by the source. -/
def startGame (env : Env) (d : Difficulty) (now : ℤ) (s : GameS) : GameS :=
  { s with
    difficulty := d
    gameState := .playing
    score := 0
    correctAnswers := 0
    totalQuestions := 0
    startTime := now
    elapsedTime := 0
    player := s.player.reset env
    gates := GateManager.resetGates s.gates
    gatesPassed := 0 }

/-- `Game.pauseGame()`. -/
def pauseGame (s : GameS) : GameS :=
  { s with isPaused := true, gameState := .question, player := s.player.clearInput }

/-- `Game.resumeGame()`. -/
def resumeGame (s : GameS) : GameS :=
  { s with isPaused := false, gameState := .playing }

/-- `Game.endGame()` (summary reporting omitted). -/
def endGame (s : GameS) : GameS :=
  { s with gameState := .ended }

/-- The `keydown` window listener: forwarded to the player only while
`gameState === PLAYING`. -/
def keyDown (k : Key) (s : GameS) : GameS :=
  if s.gameState = .playing then { s with player := s.player.handleKeyDown k } else s

/-- The `keyup` window listener. -/
def keyUp (k : Key) (s : GameS) : GameS :=
  if s.gameState = .playing then { s with player := s.player.handleKeyUp k } else s

/-- `Game.onAnswerSelected(isCorrect)` together with the body of its
`setTimeout` (which always runs once, while the game is still paused);
the event is only deliverable while a question is shown. -/
def answer (isCorrect : Bool) (s : GameS) : GameS :=
  if s.gameState = .question then
    let s := { s with totalQuestions := s.totalQuestions + 1 }
    let s :=
      if isCorrect then
        let points := calculatePoints s.difficulty
        let pg := GateManager.passGateGo s.gates
        { s with
          correctAnswers := s.correctAnswers + 1
          score := s.score + points
          gates := pg.1
          gatesPassed := if pg.2 then s.gatesPassed + 1 else s.gatesPassed }
      else
        { s with
          score := MathUtils.applyScorePenalty s.score SCORING.WRONG_ANSWER_PENALTY
          elapsedTime := s.elapsedTime + TIME_PENALTIES.WRONG_ANSWER }
    if s.gatesPassed ≥ GATES.TOTAL_GATES then endGame s else resumeGame s
  else s

/-- Elapsed-time assignment at the top of the Playing branch of
`animate()`: `this.elapsedTime = Date.now() - this.startTime`. -/
def frameAssignElapsed (now : ℤ) (s : GameS) : GameS :=
  { s with elapsedTime := now - s.startTime }

/-- Player update plus obstacle-collision handling in `animate()`
(`playerPos` is read back from the updated player). -/
def frameMove (env : Env) (s : GameS) : GameS :=
  match ObstacleManager.checkCollision env s.om (s.player.update env).posX
      (s.player.update env).posZ with
  | some push => { s with player := (s.player.update env).applyCollision push }
  | none => { s with player := s.player.update env }

/-- Flag-pole collision handling in `animate()` (crash/tumble penalties),
skipped while the player is crashed or tumbling. -/
def frameFlag (s : GameS) : GameS :=
  if !s.player.isCrashed && !s.player.isTumbling then
    match (GateManager.checkFlagCollision s.player.posX s.player.posZ s.gates).type,
        (GateManager.checkFlagCollision s.player.posX s.player.posZ s.gates).gate with
    | .crash, some g =>
      { s with
        player := s.player.crash (some g.posZ)
        score := MathUtils.applyScorePenalty s.score SCORING.CRASH_PENALTY
        elapsedTime := s.elapsedTime + TIME_PENALTIES.CRASH }
    | .tumble, _ =>
      { s with
        player := s.player.tumble
        score := MathUtils.applyScorePenalty s.score SCORING.TUMBLE_PENALTY
        elapsedTime := s.elapsedTime + TIME_PENALTIES.TUMBLE }
    | _, _ => s
  else s

/-- Gate-trigger handling in `animate()`: the crash/tumble guard is
re-read after flag handling, and a trigger pauses into Question state
(`onGateReached`). -/
def frameGate (s : GameS) : GameS :=
  if !s.player.isCrashed && !s.player.isTumbling then
    match (GateManager.checkCollision s.player.posX s.player.posZ s.gates).1 with
    | some _ => pauseGame
        { s with gates := (GateManager.checkCollision s.player.posX s.player.posZ s.gates).2 }
    | none =>
        { s with gates := (GateManager.checkCollision s.player.posX s.player.posZ s.gates).2 }
  else s

/-- Finish-line handling at the end of the Playing branch of `animate()`. -/
def frameFinish (s : GameS) : GameS :=
  if GateManager.checkFinishLine s.player.posZ then endGame s else s

/-- One `animate()` tick: the Playing branch runs only while
`gameState === PLAYING && !isPaused`; rendering always happens and is
omitted. -/
def frame (env : Env) (now : ℤ) (s : GameS) : GameS :=
  if s.gameState = .playing && !s.isPaused then
    frameFinish (frameGate (frameFlag (frameMove env (frameAssignElapsed now s))))
  else s

/-- Event dispatch. -/
def step (env : Env) (s : GameS) : GEvent → GameS
  | .startGame d now => startGame env d now s
  | .keyDown k => keyDown k s
  | .keyUp k => keyUp k s
  | .frame now => frame env now s
  | .answer b => answer b s

/-- Run an input-event sequence from a state. -/
def run (env : Env) (evs : List GEvent) (s : GameS) : GameS :=
  evs.foldl (step env) s

/-- The skier's `(x, z)` position trajectory sampled after every event. -/
def runTraj (env : Env) : List GEvent → GameS → List (ℚ × ℚ)
  | [], _ => []
  | e :: rest, s =>
    let s' := step env s e
    (s'.player.posX, s'.player.posZ) :: runTraj env rest s'

end Game

/-! ## Claim-support definitions -/

/-- The public operations of `SkierController`, as invoked by `Game`
(`update` each frame; key handlers; `applyCollision` on obstacle pushback;
`tumble`/`crash` on flag collision; `reset` at race start). -/
inductive SkierOp where
  | update
  | keyDown (k : Key)
  | keyUp (k : Key)
  | clearInput
  | applyCollision (push : ℚ × ℚ)
  | tumble
  | crash (gateZ : Option ℚ)
  | reset

def Skier.applyOp (env : Env) (s : Skier) : SkierOp → Skier
  | .update => s.update env
  | .keyDown k => s.handleKeyDown k
  | .keyUp k => s.handleKeyUp k
  | .clearInput => s.clearInput
  | .applyCollision p => s.applyCollision p
  | .tumble => s.tumble
  | .crash z => s.crash z
  | .reset => s.reset env

/-- Run a sequence of controller operations from a state. -/
def Skier.runOps (env : Env) (ops : List SkierOp) (s : Skier) : Skier :=
  ops.foldl (Skier.applyOp env) s

/-- Number of gates in the Triggered-but-not-Passed state. -/
def triggeredNotPassedCount (gates : List Gate) : ℕ :=
  (gates.filter fun g => g.triggered && !g.passed).length

/-- The trigger condition of `GateManager.checkCollision` for one gate:
reached-or-passed the gate's z, within the 3-unit trailing window, and
within half-width + 1 laterally. -/
def gateQualifies (px pz : ℚ) (g : Gate) : Prop :=
  pz ≤ g.posZ ∧ pz ≥ g.posZ - 3 ∧ |px - g.posX| < GATES.GATE_WIDTH / 2 + 1

instance gateQualifiesDecidable (px pz : ℚ) (g : Gate) : Decidable (gateQualifies px pz g) :=
  inferInstanceAs (Decidable (_ ∧ _ ∧ _))

/-- Pointwise gate-state monotonicity: no gate's `triggered` or `passed`
flag is ever cleared. -/
def GatesMono (old new : List Gate) : Prop :=
  new.length = old.length ∧
    ∀ (i : ℕ) (g g' : Gate), old[i]? = some g → new[i]? = some g' →
      (g.triggered = true → g'.triggered = true) ∧ (g.passed = true → g'.passed = true)

/-- Squared argument handed to `Math.sqrt` by `distance2D` for the player
and an obstacle. -/
def distSq (px pz : ℚ) (o : Obstacle) : ℚ :=
  (o.posX - px) * (o.posX - px) + (o.posZ - pz) * (o.posZ - pz)

/-- True 2D overlap of player and obstacle circles (squared form). -/
def overlaps (px pz pr : ℚ) (o : Obstacle) : Prop :=
  distSq px pz o < (pr + o.radius) * (pr + o.radius)

/-- A `Math.sqrt` model that is exact on the arguments `0`, `9` and `49`
occurring in the concrete witnesses below. -/
def sqrtSamples (q : ℚ) : ℚ :=
  if q = 9 then 3 else if 49 ≤ q then 7 else 0

def envSamples : Env := { envZero with sqrtq := sqrtSamples }

/-- A single tree far outside the ski path (`x = 40 ≥ 32`, radius
`1.5 ≤ 2.6`), matching the `createForest`/`createRocks` placement ranges. -/
def oneTreePlacement : List (ℚ × ℚ × ℚ × ObstacleKind) := [(40, -1000, 3/2, .tree)]

/-- A `Math.random()` stream for course construction: gate 0 draws
spacing variation `0.75` (z = −60) and base X `−4.96`; gate 1 likewise
(z = −90, x = `+4.96`); remaining gates use draw `1/2`. -/
def raceStream : List ℚ := [0, 3/25, 0, 3/25] ++ List.replicate 16 (1/2)

/-- Same stream except gate 0's base-X draw is `1/2` (x = −8), as a second
run's unseeded `Math.random()` could produce. -/
def raceStreamAlt : List ℚ := [0, 1/2, 0, 3/25] ++ List.replicate 16 (1/2)

/-- Start the race, press forward once, and let 185 frames elapse: the
skier rolls straight down the fall line (x = 0) into gate 0's trigger
window at z = −60, which pauses the game into Question state. -/
def raceEventsPhase1 : List GEvent :=
  [.startGame .medium 0, .keyDown .arrowUp] ++ List.replicate 185 (GEvent.frame 1000)

/-- ... answer the question wrongly (the gate stays Triggered-but-not-
Passed) and keep skiing 85 more frames into gate 1's trigger window. -/
def raceEvents : List GEvent :=
  raceEventsPhase1 ++ [.answer false] ++ List.replicate 85 (GEvent.frame 2000)

/-- A shorter prefix used for the determinism comparison. -/
def c2Events : List GEvent :=
  [.startGame .medium 0, .keyDown .arrowUp] ++ List.replicate 170 (GEvent.frame 1000)

/-- A concrete pending gate at `(x, z) = (0, −70)`. -/
def gateEx : Gate :=
  { index := 0, posX := 0, posY := 0, posZ := -70
    passed := false, triggered := false, color := .red }

/-- The same gate already triggered. -/
def gateExTriggered : Gate := { gateEx with triggered := true }

/-- A second pending gate further down, with a distinct index. -/
def gateEx1 : Gate :=
  { index := 1, posX := 8, posY := 0, posZ := -110
    passed := false, triggered := false, color := .blue }

/-- An obstacle manager holding a single tree of radius 3 at the origin. -/
def omEx : ObstacleManager := ObstacleManager.build envSamples [(0, 0, 3, .tree)]

/-- A Playing-state game used to exercise the frame step. -/
def gamePlaying : GameS := Game.startGame envZero .medium 0 (Game.init envZero [] [])

instance overlapsDecidable (px pz pr : ℚ) (o : Obstacle) : Decidable (overlaps px pz pr o) :=
  inferInstanceAs (Decidable (_ < _))

/-- The corrected gate-state invariant: the number of
Triggered-but-not-Passed gates never exceeds the number of wrong answers
so far (`totalQuestions - correctAnswers`), plus one while the game is
not in the Playing state (the unresolved-question window); wrong answers
are what leave gates permanently Triggered-but-not-Passed. -/
def C1Inv (s : GameS) : Prop :=
  triggeredNotPassedCount s.gates + s.correctAnswers ≤
    s.totalQuestions + (if s.gameState = .playing then 0 else 1) ∧
  s.correctAnswers ≤ s.totalQuestions ∧
  (s.gameState = .question → 1 ≤ triggeredNotPassedCount s.gates)

/-- The single obstacle of `omEx`, as `addObstacle` stores it. -/
def oEx : Obstacle := { posX := 0, posY := 0, posZ := 0, radius := 3, kind := .tree }


/-! ### Chunked trace evaluation

Kernel evaluation of a multi-hundred-event `Game.run` in one step nests
too deeply, so long traces are evaluated in chunks through explicit
intermediate states. `GameSData` is `GameS` without the obstacle manager
(whose spatial grid is a function and so has no decidable equality); the
obstacle manager is constant along a run (`Game.step_om`). -/

/-- All fields of `GameS` except the obstacle manager. -/
structure GameSData where
  gameState : GState
  score : ℚ
  correctAnswers : ℕ
  totalQuestions : ℕ
  startTime : ℤ
  elapsedTime : ℤ
  difficulty : Difficulty
  isPaused : Bool
  player : Skier
  gates : List Gate
  gatesPassed : ℕ
deriving DecidableEq, Repr

/-- Component-wise equality of rationals (kernel evaluation of the
derived `Rat` structure equality nests too deeply on long computation
chains, so rationals are compared by numerator and denominator). -/
def qAgree (a b : ℚ) : Prop := a.num = b.num ∧ a.den = b.den

instance qAgreeDecidable (a b : ℚ) : Decidable (qAgree a b) := by
  unfold qAgree
  infer_instance

/-- Field-wise equality of skier states, rationals compared by `qAgree`. -/
def skierAgree (a b : Skier) : Prop :=
  qAgree a.posX b.posX ∧ qAgree a.posY b.posY ∧ qAgree a.posZ b.posZ ∧
  qAgree a.velX b.velX ∧ qAgree a.velY b.velY ∧ qAgree a.velZ b.velZ ∧
  qAgree a.turnAngle b.turnAngle ∧ qAgree a.angularVelocity b.angularVelocity ∧
  a.moveLeft = b.moveLeft ∧ a.moveRight = b.moveRight ∧
  a.moveForward = b.moveForward ∧ a.moveBackward = b.moveBackward ∧
  a.hasStarted = b.hasStarted ∧ a.isCrashed = b.isCrashed ∧
  a.isTumbling = b.isTumbling ∧ a.crashTimer = b.crashTimer ∧
  a.tumbleTimer = b.tumbleTimer ∧ a.recoveryPosition = b.recoveryPosition

instance skierAgreeDecidable (a b : Skier) : Decidable (skierAgree a b) := by
  unfold skierAgree
  infer_instance

/-- Field-wise equality of a game state with a `GameSData` record. -/
def stateAgrees (s : GameS) (d : GameSData) : Prop :=
  s.gameState = d.gameState ∧ qAgree s.score d.score ∧
  s.correctAnswers = d.correctAnswers ∧ s.totalQuestions = d.totalQuestions ∧
  s.startTime = d.startTime ∧ s.elapsedTime = d.elapsedTime ∧
  s.difficulty = d.difficulty ∧ s.isPaused = d.isPaused ∧
  skierAgree s.player d.player ∧ s.gates = d.gates ∧ s.gatesPassed = d.gatesPassed

instance stateAgreesDecidable (s : GameS) (d : GameSData) :
    Decidable (stateAgrees s d) := by
  unfold stateAgrees
  infer_instance

/-- Rebuild a game state from its decidable part and an obstacle manager. -/
def mkGameS (d : GameSData) (om : ObstacleManager) : GameS :=
  { gameState := d.gameState, score := d.score, correctAnswers := d.correctAnswers
    totalQuestions := d.totalQuestions, startTime := d.startTime
    elapsedTime := d.elapsedTime, difficulty := d.difficulty, isPaused := d.isPaused
    player := d.player, gates := d.gates, gatesPassed := d.gatesPassed, om := om }

/-- `raceEvents` split into kernel-sized chunks: start + 45 frames. -/
def c1ChunkA : List GEvent :=
  [.startGame .medium 0, .keyDown .arrowUp] ++ List.replicate 45 (GEvent.frame 1000)

/-- 45 more frames. -/
def c1ChunkB : List GEvent := List.replicate 45 (GEvent.frame 1000)

/-- 45 more frames. -/
def c1ChunkC : List GEvent := List.replicate 45 (GEvent.frame 1000)

/-- The 50 frames that reach gate 0 and pose its question. -/
def c1ChunkD : List GEvent := List.replicate 50 (GEvent.frame 1000)

/-- The wrong answer and 40 frames onward. -/
def c1ChunkE : List GEvent :=
  [.answer false] ++ List.replicate 40 (GEvent.frame 2000)

/-- 35 more frames after the wrong answer. -/
def c1ChunkF : List GEvent := List.replicate 35 (GEvent.frame 2000)

/-- The final 10 frames, reaching gate 1. -/
def c1ChunkG : List GEvent := List.replicate 10 (GEvent.frame 2000)

/-- The final 35 frames of the determinism run (its first three chunks
are `c1ChunkA`, `c1ChunkB`, `c1ChunkC`). -/
def c2ChunkD : List GEvent := List.replicate 35 (GEvent.frame 1000)

/-- State after the race start, one forward key press and 45 frames. -/
def mAData : GameSData :=
  { gameState := GState.playing,
    score := 0,
    correctAnswers := 0,
    totalQuestions := 0,
    startTime := 0,
    elapsedTime := 1000,
    difficulty := Difficulty.medium,
    isPaused := false,
    player := { posX := 0,
                posY := 0,
                posZ := (-278613 : Rat)/25000,
                velX := 0,
                velY := 0,
                velZ := (-51 : Rat)/125,
                turnAngle := 0,
                angularVelocity := 0,
                moveLeft := false,
                moveRight := false,
                moveForward := true,
                moveBackward := false,
                hasStarted := true,
                isCrashed := false,
                isTumbling := false,
                crashTimer := 0,
                tumbleTimer := 0,
                recoveryPosition := none },
    gates := [{ index := 0,
                posX := (-124 : Rat)/25,
                posY := 0,
                posZ := -60,
                passed := false,
                triggered := false,
                color := GateColor.red },
              { index := 1,
                posX := (124 : Rat)/25,
                posY := 0,
                posZ := -90,
                passed := false,
                triggered := false,
                color := GateColor.blue },
              { index := 2,
                posX := -8,
                posY := 0,
                posZ := -130,
                passed := false,
                triggered := false,
                color := GateColor.red },
              { index := 3,
                posX := 8,
                posY := 0,
                posZ := -170,
                passed := false,
                triggered := false,
                color := GateColor.blue },
              { index := 4,
                posX := -8,
                posY := 0,
                posZ := -210,
                passed := false,
                triggered := false,
                color := GateColor.red },
              { index := 5,
                posX := 8,
                posY := 0,
                posZ := -250,
                passed := false,
                triggered := false,
                color := GateColor.blue },
              { index := 6,
                posX := -8,
                posY := 0,
                posZ := -290,
                passed := false,
                triggered := false,
                color := GateColor.red },
              { index := 7,
                posX := 8,
                posY := 0,
                posZ := -330,
                passed := false,
                triggered := false,
                color := GateColor.blue },
              { index := 8,
                posX := -8,
                posY := 0,
                posZ := -370,
                passed := false,
                triggered := false,
                color := GateColor.red },
              { index := 9,
                posX := 8,
                posY := 0,
                posZ := -410,
                passed := false,
                triggered := false,
                color := GateColor.blue }],
    gatesPassed := 0 }

/-- State 45 frames later. -/
def mBData : GameSData :=
  { gameState := GState.playing,
    score := 0,
    correctAnswers := 0,
    totalQuestions := 0,
    startTime := 0,
    elapsedTime := 1000,
    difficulty := Difficulty.medium,
    isPaused := false,
    player := { posX := 0,
                posY := 0,
                posZ := (-737613 : Rat)/25000,
                velX := 0,
                velY := 0,
                velZ := (-51 : Rat)/125,
                turnAngle := 0,
                angularVelocity := 0,
                moveLeft := false,
                moveRight := false,
                moveForward := true,
                moveBackward := false,
                hasStarted := true,
                isCrashed := false,
                isTumbling := false,
                crashTimer := 0,
                tumbleTimer := 0,
                recoveryPosition := none },
    gates := [{ index := 0,
                posX := (-124 : Rat)/25,
                posY := 0,
                posZ := -60,
                passed := false,
                triggered := false,
                color := GateColor.red },
              { index := 1,
                posX := (124 : Rat)/25,
                posY := 0,
                posZ := -90,
                passed := false,
                triggered := false,
                color := GateColor.blue },
              { index := 2,
                posX := -8,
                posY := 0,
                posZ := -130,
                passed := false,
                triggered := false,
                color := GateColor.red },
              { index := 3,
                posX := 8,
                posY := 0,
                posZ := -170,
                passed := false,
                triggered := false,
                color := GateColor.blue },
              { index := 4,
                posX := -8,
                posY := 0,
                posZ := -210,
                passed := false,
                triggered := false,
                color := GateColor.red },
              { index := 5,
                posX := 8,
                posY := 0,
                posZ := -250,
                passed := false,
                triggered := false,
                color := GateColor.blue },
              { index := 6,
                posX := -8,
                posY := 0,
                posZ := -290,
                passed := false,
                triggered := false,
                color := GateColor.red },
              { index := 7,
                posX := 8,
                posY := 0,
                posZ := -330,
                passed := false,
                triggered := false,
                color := GateColor.blue },
              { index := 8,
                posX := -8,
                posY := 0,
                posZ := -370,
                passed := false,
                triggered := false,
                color := GateColor.red },
              { index := 9,
                posX := 8,
                posY := 0,
                posZ := -410,
                passed := false,
                triggered := false,
                color := GateColor.blue }],
    gatesPassed := 0 }

/-- State 45 more frames later. -/
def mCData : GameSData :=
  { gameState := GState.playing,
    score := 0,
    correctAnswers := 0,
    totalQuestions := 0,
    startTime := 0,
    elapsedTime := 1000,
    difficulty := Difficulty.medium,
    isPaused := false,
    player := { posX := 0,
                posY := 0,
                posZ := (-1196613 : Rat)/25000,
                velX := 0,
                velY := 0,
                velZ := (-51 : Rat)/125,
                turnAngle := 0,
                angularVelocity := 0,
                moveLeft := false,
                moveRight := false,
                moveForward := true,
                moveBackward := false,
                hasStarted := true,
                isCrashed := false,
                isTumbling := false,
                crashTimer := 0,
                tumbleTimer := 0,
                recoveryPosition := none },
    gates := [{ index := 0,
                posX := (-124 : Rat)/25,
                posY := 0,
                posZ := -60,
                passed := false,
                triggered := false,
                color := GateColor.red },
              { index := 1,
                posX := (124 : Rat)/25,
                posY := 0,
                posZ := -90,
                passed := false,
                triggered := false,
                color := GateColor.blue },
              { index := 2,
                posX := -8,
                posY := 0,
                posZ := -130,
                passed := false,
                triggered := false,
                color := GateColor.red },
              { index := 3,
                posX := 8,
                posY := 0,
                posZ := -170,
                passed := false,
                triggered := false,
                color := GateColor.blue },
              { index := 4,
                posX := -8,
                posY := 0,
                posZ := -210,
                passed := false,
                triggered := false,
                color := GateColor.red },
              { index := 5,
                posX := 8,
                posY := 0,
                posZ := -250,
                passed := false,
                triggered := false,
                color := GateColor.blue },
              { index := 6,
                posX := -8,
                posY := 0,
                posZ := -290,
                passed := false,
                triggered := false,
                color := GateColor.red },
              { index := 7,
                posX := 8,
                posY := 0,
                posZ := -330,
                passed := false,
                triggered := false,
                color := GateColor.blue },
              { index := 8,
                posX := -8,
                posY := 0,
                posZ := -370,
                passed := false,
                triggered := false,
                color := GateColor.red },
              { index := 9,
                posX := 8,
                posY := 0,
                posZ := -410,
                passed := false,
                triggered := false,
                color := GateColor.blue }],
    gatesPassed := 0 }

/-- State at frame 185: gate 0 Triggered, question posed, game paused. -/
def mDData : GameSData :=
  { gameState := GState.question,
    score := 0,
    correctAnswers := 0,
    totalQuestions := 0,
    startTime := 0,
    elapsedTime := 1000,
    difficulty := Difficulty.medium,
    isPaused := true,
    player := { posX := 0,
                posY := 0,
                posZ := (-1502613 : Rat)/25000,
                velX := 0,
                velY := 0,
                velZ := (-51 : Rat)/125,
                turnAngle := 0,
                angularVelocity := 0,
                moveLeft := false,
                moveRight := false,
                moveForward := false,
                moveBackward := false,
                hasStarted := true,
                isCrashed := false,
                isTumbling := false,
                crashTimer := 0,
                tumbleTimer := 0,
                recoveryPosition := none },
    gates := [{ index := 0,
                posX := (-124 : Rat)/25,
                posY := 0,
                posZ := -60,
                passed := false,
                triggered := true,
                color := GateColor.red },
              { index := 1,
                posX := (124 : Rat)/25,
                posY := 0,
                posZ := -90,
                passed := false,
                triggered := false,
                color := GateColor.blue },
              { index := 2,
                posX := -8,
                posY := 0,
                posZ := -130,
                passed := false,
                triggered := false,
                color := GateColor.red },
              { index := 3,
                posX := 8,
                posY := 0,
                posZ := -170,
                passed := false,
                triggered := false,
                color := GateColor.blue },
              { index := 4,
                posX := -8,
                posY := 0,
                posZ := -210,
                passed := false,
                triggered := false,
                color := GateColor.red },
              { index := 5,
                posX := 8,
                posY := 0,
                posZ := -250,
                passed := false,
                triggered := false,
                color := GateColor.blue },
              { index := 6,
                posX := -8,
                posY := 0,
                posZ := -290,
                passed := false,
                triggered := false,
                color := GateColor.red },
              { index := 7,
                posX := 8,
                posY := 0,
                posZ := -330,
                passed := false,
                triggered := false,
                color := GateColor.blue },
              { index := 8,
                posX := -8,
                posY := 0,
                posZ := -370,
                passed := false,
                triggered := false,
                color := GateColor.red },
              { index := 9,
                posX := 8,
                posY := 0,
                posZ := -410,
                passed := false,
                triggered := false,
                color := GateColor.blue }],
    gatesPassed := 0 }

/-- State after the wrong answer (gate 0 stays unpassed) and 40 frames. -/
def mEData : GameSData :=
  { gameState := GState.playing,
    score := 0,
    correctAnswers := 0,
    totalQuestions := 1,
    startTime := 0,
    elapsedTime := 2000,
    difficulty := Difficulty.medium,
    isPaused := false,
    player := { posX := 0,
                posY := 0,
                posZ := (-1910613 : Rat)/25000,
                velX := 0,
                velY := 0,
                velZ := (-51 : Rat)/125,
                turnAngle := 0,
                angularVelocity := 0,
                moveLeft := false,
                moveRight := false,
                moveForward := false,
                moveBackward := false,
                hasStarted := true,
                isCrashed := false,
                isTumbling := false,
                crashTimer := 0,
                tumbleTimer := 0,
                recoveryPosition := none },
    gates := [{ index := 0,
                posX := (-124 : Rat)/25,
                posY := 0,
                posZ := -60,
                passed := false,
                triggered := true,
                color := GateColor.red },
              { index := 1,
                posX := (124 : Rat)/25,
                posY := 0,
                posZ := -90,
                passed := false,
                triggered := false,
                color := GateColor.blue },
              { index := 2,
                posX := -8,
                posY := 0,
                posZ := -130,
                passed := false,
                triggered := false,
                color := GateColor.red },
              { index := 3,
                posX := 8,
                posY := 0,
                posZ := -170,
                passed := false,
                triggered := false,
                color := GateColor.blue },
              { index := 4,
                posX := -8,
                posY := 0,
                posZ := -210,
                passed := false,
                triggered := false,
                color := GateColor.red },
              { index := 5,
                posX := 8,
                posY := 0,
                posZ := -250,
                passed := false,
                triggered := false,
                color := GateColor.blue },
              { index := 6,
                posX := -8,
                posY := 0,
                posZ := -290,
                passed := false,
                triggered := false,
                color := GateColor.red },
              { index := 7,
                posX := 8,
                posY := 0,
                posZ := -330,
                passed := false,
                triggered := false,
                color := GateColor.blue },
              { index := 8,
                posX := -8,
                posY := 0,
                posZ := -370,
                passed := false,
                triggered := false,
                color := GateColor.red },
              { index := 9,
                posX := 8,
                posY := 0,
                posZ := -410,
                passed := false,
                triggered := false,
                color := GateColor.blue }],
    gatesPassed := 0 }

/-- The game state 35 frames after the wrong answer. -/
def mFData : GameSData :=
  { gameState := GState.question,
    score := 0,
    correctAnswers := 0,
    totalQuestions := 1,
    startTime := 0,
    elapsedTime := 2000,
    difficulty := Difficulty.medium,
    isPaused := true,
    player := { posX := 0,
                posY := 0,
                posZ := (-2257413 : Rat)/25000,
                velX := 0,
                velY := 0,
                velZ := (-51 : Rat)/125,
                turnAngle := 0,
                angularVelocity := 0,
                moveLeft := false,
                moveRight := false,
                moveForward := false,
                moveBackward := false,
                hasStarted := true,
                isCrashed := false,
                isTumbling := false,
                crashTimer := 0,
                tumbleTimer := 0,
                recoveryPosition := none },
    gates := [{ index := 0,
                posX := (-124 : Rat)/25,
                posY := 0,
                posZ := -60,
                passed := false,
                triggered := true,
                color := GateColor.red },
              { index := 1,
                posX := (124 : Rat)/25,
                posY := 0,
                posZ := -90,
                passed := false,
                triggered := true,
                color := GateColor.blue },
              { index := 2,
                posX := -8,
                posY := 0,
                posZ := -130,
                passed := false,
                triggered := false,
                color := GateColor.red },
              { index := 3,
                posX := 8,
                posY := 0,
                posZ := -170,
                passed := false,
                triggered := false,
                color := GateColor.blue },
              { index := 4,
                posX := -8,
                posY := 0,
                posZ := -210,
                passed := false,
                triggered := false,
                color := GateColor.red },
              { index := 5,
                posX := 8,
                posY := 0,
                posZ := -250,
                passed := false,
                triggered := false,
                color := GateColor.blue },
              { index := 6,
                posX := -8,
                posY := 0,
                posZ := -290,
                passed := false,
                triggered := false,
                color := GateColor.red },
              { index := 7,
                posX := 8,
                posY := 0,
                posZ := -330,
                passed := false,
                triggered := false,
                color := GateColor.blue },
              { index := 8,
                posX := -8,
                posY := 0,
                posZ := -370,
                passed := false,
                triggered := false,
                color := GateColor.red },
              { index := 9,
                posX := 8,
                posY := 0,
                posZ := -410,
                passed := false,
                triggered := false,
                color := GateColor.blue }],
    gatesPassed := 0 }

/-- The `raceStreamAlt` course after the race start, one forward key
press and 45 frames: same player state, gate 0 at x = -8. -/
def qAData : GameSData :=
  { gameState := GState.playing,
    score := 0,
    correctAnswers := 0,
    totalQuestions := 0,
    startTime := 0,
    elapsedTime := 1000,
    difficulty := Difficulty.medium,
    isPaused := false,
    player := { posX := 0,
                posY := 0,
                posZ := (-278613 : Rat)/25000,
                velX := 0,
                velY := 0,
                velZ := (-51 : Rat)/125,
                turnAngle := 0,
                angularVelocity := 0,
                moveLeft := false,
                moveRight := false,
                moveForward := true,
                moveBackward := false,
                hasStarted := true,
                isCrashed := false,
                isTumbling := false,
                crashTimer := 0,
                tumbleTimer := 0,
                recoveryPosition := none },
    gates := [{ index := 0,
                posX := -8,
                posY := 0,
                posZ := -60,
                passed := false,
                triggered := false,
                color := GateColor.red },
              { index := 1,
                posX := (124 : Rat)/25,
                posY := 0,
                posZ := -90,
                passed := false,
                triggered := false,
                color := GateColor.blue },
              { index := 2,
                posX := -8,
                posY := 0,
                posZ := -130,
                passed := false,
                triggered := false,
                color := GateColor.red },
              { index := 3,
                posX := 8,
                posY := 0,
                posZ := -170,
                passed := false,
                triggered := false,
                color := GateColor.blue },
              { index := 4,
                posX := -8,
                posY := 0,
                posZ := -210,
                passed := false,
                triggered := false,
                color := GateColor.red },
              { index := 5,
                posX := 8,
                posY := 0,
                posZ := -250,
                passed := false,
                triggered := false,
                color := GateColor.blue },
              { index := 6,
                posX := -8,
                posY := 0,
                posZ := -290,
                passed := false,
                triggered := false,
                color := GateColor.red },
              { index := 7,
                posX := 8,
                posY := 0,
                posZ := -330,
                passed := false,
                triggered := false,
                color := GateColor.blue },
              { index := 8,
                posX := -8,
                posY := 0,
                posZ := -370,
                passed := false,
                triggered := false,
                color := GateColor.red },
              { index := 9,
                posX := 8,
                posY := 0,
                posZ := -410,
                passed := false,
                triggered := false,
                color := GateColor.blue }],
    gatesPassed := 0 }

/-- The `raceStreamAlt` course 45 frames later. -/
def qBData : GameSData :=
  { gameState := GState.playing,
    score := 0,
    correctAnswers := 0,
    totalQuestions := 0,
    startTime := 0,
    elapsedTime := 1000,
    difficulty := Difficulty.medium,
    isPaused := false,
    player := { posX := 0,
                posY := 0,
                posZ := (-737613 : Rat)/25000,
                velX := 0,
                velY := 0,
                velZ := (-51 : Rat)/125,
                turnAngle := 0,
                angularVelocity := 0,
                moveLeft := false,
                moveRight := false,
                moveForward := true,
                moveBackward := false,
                hasStarted := true,
                isCrashed := false,
                isTumbling := false,
                crashTimer := 0,
                tumbleTimer := 0,
                recoveryPosition := none },
    gates := [{ index := 0,
                posX := -8,
                posY := 0,
                posZ := -60,
                passed := false,
                triggered := false,
                color := GateColor.red },
              { index := 1,
                posX := (124 : Rat)/25,
                posY := 0,
                posZ := -90,
                passed := false,
                triggered := false,
                color := GateColor.blue },
              { index := 2,
                posX := -8,
                posY := 0,
                posZ := -130,
                passed := false,
                triggered := false,
                color := GateColor.red },
              { index := 3,
                posX := 8,
                posY := 0,
                posZ := -170,
                passed := false,
                triggered := false,
                color := GateColor.blue },
              { index := 4,
                posX := -8,
                posY := 0,
                posZ := -210,
                passed := false,
                triggered := false,
                color := GateColor.red },
              { index := 5,
                posX := 8,
                posY := 0,
                posZ := -250,
                passed := false,
                triggered := false,
                color := GateColor.blue },
              { index := 6,
                posX := -8,
                posY := 0,
                posZ := -290,
                passed := false,
                triggered := false,
                color := GateColor.red },
              { index := 7,
                posX := 8,
                posY := 0,
                posZ := -330,
                passed := false,
                triggered := false,
                color := GateColor.blue },
              { index := 8,
                posX := -8,
                posY := 0,
                posZ := -370,
                passed := false,
                triggered := false,
                color := GateColor.red },
              { index := 9,
                posX := 8,
                posY := 0,
                posZ := -410,
                passed := false,
                triggered := false,
                color := GateColor.blue }],
    gatesPassed := 0 }

/-- The `raceStreamAlt` course 45 more frames later. -/
def qCData : GameSData :=
  { gameState := GState.playing,
    score := 0,
    correctAnswers := 0,
    totalQuestions := 0,
    startTime := 0,
    elapsedTime := 1000,
    difficulty := Difficulty.medium,
    isPaused := false,
    player := { posX := 0,
                posY := 0,
                posZ := (-1196613 : Rat)/25000,
                velX := 0,
                velY := 0,
                velZ := (-51 : Rat)/125,
                turnAngle := 0,
                angularVelocity := 0,
                moveLeft := false,
                moveRight := false,
                moveForward := true,
                moveBackward := false,
                hasStarted := true,
                isCrashed := false,
                isTumbling := false,
                crashTimer := 0,
                tumbleTimer := 0,
                recoveryPosition := none },
    gates := [{ index := 0,
                posX := -8,
                posY := 0,
                posZ := -60,
                passed := false,
                triggered := false,
                color := GateColor.red },
              { index := 1,
                posX := (124 : Rat)/25,
                posY := 0,
                posZ := -90,
                passed := false,
                triggered := false,
                color := GateColor.blue },
              { index := 2,
                posX := -8,
                posY := 0,
                posZ := -130,
                passed := false,
                triggered := false,
                color := GateColor.red },
              { index := 3,
                posX := 8,
                posY := 0,
                posZ := -170,
                passed := false,
                triggered := false,
                color := GateColor.blue },
              { index := 4,
                posX := -8,
                posY := 0,
                posZ := -210,
                passed := false,
                triggered := false,
                color := GateColor.red },
              { index := 5,
                posX := 8,
                posY := 0,
                posZ := -250,
                passed := false,
                triggered := false,
                color := GateColor.blue },
              { index := 6,
                posX := -8,
                posY := 0,
                posZ := -290,
                passed := false,
                triggered := false,
                color := GateColor.red },
              { index := 7,
                posX := 8,
                posY := 0,
                posZ := -330,
                passed := false,
                triggered := false,
                color := GateColor.blue },
              { index := 8,
                posX := -8,
                posY := 0,
                posZ := -370,
                passed := false,
                triggered := false,
                color := GateColor.red },
              { index := 9,
                posX := 8,
                posY := 0,
                posZ := -410,
                passed := false,
                triggered := false,
                color := GateColor.blue }],
    gatesPassed := 0 }

/-- The game state after `c1ChunkA` on the `raceStream` course. -/
def mAState : GameS := mkGameS mAData (ObstacleManager.build envZero oneTreePlacement)

/-- The game state after `c1ChunkA ++ c1ChunkB`. -/
def mBState : GameS := mkGameS mBData (ObstacleManager.build envZero oneTreePlacement)

/-- The game state after `c1ChunkA ++ c1ChunkB ++ c1ChunkC`. -/
def mCState : GameS := mkGameS mCData (ObstacleManager.build envZero oneTreePlacement)

/-- The game state at frame 185 (gate 0 question pending). -/
def mDState : GameS := mkGameS mDData (ObstacleManager.build envZero oneTreePlacement)

/-- The game state after the wrong answer and 40 frames. -/
def mEState : GameS := mkGameS mEData (ObstacleManager.build envZero oneTreePlacement)

/-- The game state 35 frames further on, just above gate 1. -/
def mFState : GameS := mkGameS mFData (ObstacleManager.build envZero oneTreePlacement)

/-- The game state after `c1ChunkA` on the `raceStreamAlt` course. -/
def qAState : GameS := mkGameS qAData (ObstacleManager.build envZero oneTreePlacement)

/-- The `raceStreamAlt` state after `c1ChunkA ++ c1ChunkB`. -/
def qBState : GameS := mkGameS qBData (ObstacleManager.build envZero oneTreePlacement)

/-- The `raceStreamAlt` state after `c1ChunkA ++ c1ChunkB ++ c1ChunkC`. -/
def qCState : GameS := mkGameS qCData (ObstacleManager.build envZero oneTreePlacement)

/-! ## Theorems -/

set_option maxRecDepth 100000
set_option maxHeartbeats 2000000

/-- C3 counterexample: from the Idle (pre-start) state, a steer-left
key-down — not a forward input — already sets `hasStarted`, and the next
`update()` moves the skier (gravity applies), refuting "no other input
event (steer left, steer right, brake) leaves Idle". -/
theorem C3_counterexample :
    (Skier.handleKeyDown .arrowLeft (Skier.init envZero)).hasStarted = true ∧
    (Skier.update envZero (Skier.handleKeyDown .arrowLeft (Skier.init envZero))).posZ ≠
      (Skier.init envZero).posZ := by
  constructor
  · rfl
  · with_unfolding_all decide

/-- C3 amended: the skier stays Idle (update() is the identity) until the
first key-down event of any kind; every key-down event — steer, brake,
forward or any other key code — sets `hasStarted` (leaves Idle), while
key-up and `clearInput` never do. -/
theorem C3_idle_until_any_key (env : Env) (s : Skier) (k : Key)
    (hidle : s.hasStarted = false) :
    Skier.update env s = s ∧
    (Skier.handleKeyDown k s).hasStarted = true ∧
    (Skier.handleKeyUp k s).hasStarted = false ∧
    (Skier.clearInput s).hasStarted = false := by
  refine ⟨?_, ?_, ?_, ?_⟩
  · simp [Skier.update, hidle]
  · cases k <;> simp [Skier.handleKeyDown]
  · cases k <;> simp [Skier.handleKeyUp, hidle]
  · simp [Skier.clearInput, hidle]

/-- Witness for `C3_idle_until_any_key` at the freshly constructed skier
and the forward key. -/
theorem C3_idle_until_any_key_witness :
    Skier.update envZero (Skier.init envZero) = Skier.init envZero ∧
    (Skier.handleKeyDown .arrowUp (Skier.init envZero)).hasStarted = true ∧
    (Skier.handleKeyUp .arrowUp (Skier.init envZero)).hasStarted = false ∧
    (Skier.clearInput (Skier.init envZero)).hasStarted = false :=
  C3_idle_until_any_key envZero (Skier.init envZero) .arrowUp rfl

/-- At either pole center of a flag, the pole-pair check reports a crash:
the direct-contact test fires before the banner and graze tests. -/
theorem checkFlag_at_pole (px baseX : ℚ) (isLeft : Bool)
    (h : px = baseX ∨ px = (if isLeft then baseX - 1/2 else baseX + 1/2)) :
    GateManager.checkFlag px baseX isLeft = some .crash := by
  unfold GateManager.checkFlag
  rcases h with h | h
  · rw [if_pos]
    left
    rw [h]
    simp [COLLISION.PLAYER_RADIUS, COLLISION.POLE_RADIUS]
    norm_num
  · rw [if_pos]
    right
    cases isLeft <;> simp_all [GATES.POLE_SPACING, COLLISION.PLAYER_RADIUS,
      COLLISION.POLE_RADIUS] <;> norm_num

/-- A player at least `0.7` to the right of a left flag's inner pole
triggers none of that flag's crash/tumble/graze tests. -/
theorem checkFlag_none_of_far_right (px baseX : ℚ) (h : baseX + 7/10 ≤ px) :
    GateManager.checkFlag px baseX true = none := by
  have h1 : |px - baseX| = px - baseX := abs_of_nonneg (by linarith)
  have h2 : |px - (baseX - 1/2)| = px - (baseX - 1/2) := abs_of_nonneg (by linarith)
  simp only [GateManager.checkFlag, eq_self_iff_true, if_true, GATES.POLE_SPACING,
    COLLISION.PLAYER_RADIUS, COLLISION.POLE_RADIUS, COLLISION.GRAZE_DISTANCE]
  split_ifs with hA hB hC
  · exfalso
    rcases hA with hA | hA
    · rw [h1] at hA; linarith
    · rw [h2] at hA; linarith
  · exfalso
    obtain ⟨hB1, hB2⟩ := hB
    have hm : max baseX (baseX - 1/2) = baseX := max_eq_left (by linarith)
    rw [hm] at hB2
    linarith
  · exfalso
    rcases hC with hC | hC
    · rw [h1] at hC; linarith
    · rw [h2] at hC; linarith
  · rfl

/-- C5: for the first gate inside the `|Δz| ≤ 1.5` z-proximity window, a
player position exactly at any of its four pole centers is classified
Crash by `checkFlagCollision` — never Tumble or Graze — because within
each pole-pair the direct-contact (crash) test precedes the banner
(tumble) test, which precedes the graze test. -/
theorem C5_pole_center_crash (pre post : List Gate) (g : Gate) (px pz : ℚ)
    (hwin : |pz - g.posZ| ≤ 3/2)
    (hpre : ∀ g' ∈ pre, |pz - g'.posZ| > 3/2)
    (hpole : px = g.posX - GATES.GATE_WIDTH / 2 ∨
             px = g.posX - GATES.GATE_WIDTH / 2 - GATES.POLE_SPACING ∨
             px = g.posX + GATES.GATE_WIDTH / 2 ∨
             px = g.posX + GATES.GATE_WIDTH / 2 + GATES.POLE_SPACING) :
    (GateManager.checkFlagCollision px pz (pre ++ g :: post)).type = .crash := by
  induction pre with
  | nil =>
    simp only [List.nil_append, GateManager.checkFlagCollision,
      GateManager.checkFlagCollisionGo]
    rw [if_neg (not_lt.mpr hwin)]
    rcases hpole with h | h | h | h
    · rw [checkFlag_at_pole px (g.posX - GATES.GATE_WIDTH / 2) true (Or.inl h)]
    · rw [checkFlag_at_pole px (g.posX - GATES.GATE_WIDTH / 2) true (Or.inr (by
        simpa [GATES.POLE_SPACING] using h))]
    · rw [checkFlag_none_of_far_right px (g.posX - GATES.GATE_WIDTH / 2) (by
        rw [GATES.GATE_WIDTH] at h ⊢; linarith),
        checkFlag_at_pole px (g.posX + GATES.GATE_WIDTH / 2) false (Or.inl h)]
    · rw [checkFlag_none_of_far_right px (g.posX - GATES.GATE_WIDTH / 2) (by
        rw [GATES.GATE_WIDTH, GATES.POLE_SPACING] at h; rw [GATES.GATE_WIDTH]; linarith),
        checkFlag_at_pole px (g.posX + GATES.GATE_WIDTH / 2) false (Or.inr (by
        simpa [GATES.POLE_SPACING] using h))]
  | cons g' pre ih =>
    simp only [List.cons_append, GateManager.checkFlagCollision,
      GateManager.checkFlagCollisionGo]
    rw [if_pos (hpre g' (List.mem_cons_self g' pre))]
    exact ih fun x hx => hpre x (List.mem_cons_of_mem g' hx)

/-- Witness for `C5_pole_center_crash`: a single pending gate at
`(0, −70)` and the player exactly at its right inner pole `x = 4`. -/
theorem C5_pole_center_crash_witness :
    (GateManager.checkFlagCollision 4 (-70) [gateEx]).type = .crash :=
  C5_pole_center_crash [] [] gateEx 4 (-70)
    (by norm_num [gateEx])
    (by simp)
    (Or.inr (Or.inr (Or.inl (by norm_num [gateEx, GATES.GATE_WIDTH]))))

/-- If the gate scan returns an index, it belongs to a gate that was still
Pending (neither triggered nor passed) and satisfied the trigger test. -/
theorem GateManager.checkCollisionGo_some (px pz : ℚ) (gates : List Gate) (i : ℕ)
    (h : (GateManager.checkCollisionGo px pz gates).1 = some i) :
    ∃ g ∈ gates, g.index = i ∧ g.triggered = false ∧ g.passed = false ∧
      gateQualifies px pz g := by
  induction gates with
  | nil => simp [GateManager.checkCollisionGo] at h
  | cons g rest ih =>
    simp only [GateManager.checkCollisionGo] at h
    split_ifs at h with h1 h2
    · obtain ⟨g', hg', hrest⟩ := ih h
      exact ⟨g', List.mem_cons_of_mem _ hg', hrest⟩
    · have hidx : g.index = i := by simpa using h
      simp only [Bool.or_eq_true, not_or, Bool.not_eq_true] at h1
      simp only [Bool.and_eq_true, decide_eq_true_eq] at h2
      exact ⟨g, List.mem_cons_self g rest, hidx, h1.2, h1.1, h2.1.1, h2.1.2, h2.2⟩
    · obtain ⟨g', hg', hrest⟩ := ih h
      exact ⟨g', List.mem_cons_of_mem _ hg', hrest⟩

/-- If no Pending gate passes the trigger test, the scan reports no
trigger (`-1` in the source). -/
theorem GateManager.checkCollisionGo_none (px pz : ℚ) (gates : List Gate)
    (h : ∀ g ∈ gates, g.triggered = false → g.passed = false → ¬ gateQualifies px pz g) :
    (GateManager.checkCollisionGo px pz gates).1 = none := by
  induction gates with
  | nil => rfl
  | cons g rest ih =>
    simp only [GateManager.checkCollisionGo]
    split_ifs with h1 h2
    · exact ih fun g' hg' => h g' (List.mem_cons_of_mem _ hg')
    · exfalso
      simp only [Bool.or_eq_true, not_or, Bool.not_eq_true] at h1
      simp only [Bool.and_eq_true, decide_eq_true_eq] at h2
      exact h g (List.mem_cons_self g rest) h1.2 h1.1 ⟨h2.1.1, h2.1.2, h2.2⟩
    · exact ih fun g' hg' => h g' (List.mem_cons_of_mem _ hg')

/-- C7: `GateManager.checkCollision` never returns the index of a gate
that is already Triggered or Passed (gate indices being distinct, as
`createGates` numbers them `0..9`), and returns the no-trigger value when
no Pending gate qualifies — so a gate fires its question at most once. -/
theorem C7_triggered_gate_never_refires (gates : List Gate) (px pz : ℚ)
    (hnodup : (gates.map Gate.index).Nodup) :
    (∀ g ∈ gates, g.triggered = true ∨ g.passed = true →
       (GateManager.checkCollision px pz gates).1 ≠ some g.index) ∧
    ((∀ g ∈ gates, g.triggered = false → g.passed = false → ¬ gateQualifies px pz g) →
       (GateManager.checkCollision px pz gates).1 = none) := by
  constructor
  · intro g hg hflag hres
    obtain ⟨g', hg', hidx, ht', hp', _⟩ :=
      GateManager.checkCollisionGo_some px pz gates g.index hres
    have he : g' = g := List.inj_on_of_nodup_map hnodup hg' hg hidx
    rcases hflag with hf | hf
    · rw [he, hf] at ht'; exact Bool.true_eq_false.mp ht'
    · rw [he, hf] at hp'; exact Bool.true_eq_false.mp hp'
  · exact GateManager.checkCollisionGo_none px pz gates

/-- Witness for `C7_triggered_gate_never_refires`: one triggered gate and
one pending gate, queried from the start position. -/
theorem C7_triggered_gate_never_refires_witness :
    ((GateManager.checkCollision 0 0 [gateExTriggered, gateEx1]).1 ≠
      some gateExTriggered.index) ∧
    (GateManager.checkCollision 0 0 [gateExTriggered, gateEx1]).1 = none := by
  have h := C7_triggered_gate_never_refires [gateExTriggered, gateEx1] 0 0
    (by with_unfolding_all decide)
  refine ⟨h.1 gateExTriggered (List.mem_cons_self _ _) (Or.inl rfl), h.2 ?_⟩
  with_unfolding_all decide

/-- Bridge between the code's comparison `Math.sqrt(d) < b` and the
squared-distance comparison, for an exact square root. -/
theorem sqrt_lt_iff_sq_lt (a b d : ℚ) (ha : 0 ≤ a) (h2 : a ^ 2 = d) (hb : 0 ≤ b) :
    a < b ↔ d < b ^ 2 := by
  subst h2
  constructor
  · intro h
    exact pow_lt_pow_left₀ h ha (by norm_num)
  · intro h
    by_contra hle
    push_neg at hle
    exact absurd h (not_lt.mpr (pow_le_pow_left₀ hb hle 2))

/-- Positivity of the squared distance when the player is not exactly at
the obstacle center. -/
theorem distSq_pos (px pz : ℚ) (o : Obstacle) (h : ¬(o.posX = px ∧ o.posZ = pz)) :
    0 < distSq px pz o := by
  unfold distSq
  rcases not_and_or.mp h with hx | hz
  · exact add_pos_of_pos_of_nonneg (mul_self_pos.mpr (sub_ne_zero.mpr hx))
      (mul_self_nonneg _)
  · exact add_pos_of_nonneg_of_pos (mul_self_nonneg _)
      (mul_self_pos.mpr (sub_ne_zero.mpr hz))

/-- Specification of the obstacle scan: `none` exactly when no listed
obstacle overlaps the player circle, and on the first overlapping
obstacle a pushback of squared magnitude `(overlap depth)²`, positively
proportional to the obstacle-to-player direction. Hypotheses: the
abstract square root is exact and nonnegative on the scanned distances,
radii are nonnegative, and the player sits at no obstacle's center. -/
theorem ObstacleManager.collideScan_spec (env : Env) (px pz pr : ℚ) (L : List Obstacle)
    (hsq : ∀ o ∈ L, 0 ≤ env.sqrtq (distSq px pz o) ∧
      env.sqrtq (distSq px pz o) ^ 2 = distSq px pz o)
    (hr : 0 ≤ pr)
    (hro : ∀ o ∈ L, 0 ≤ o.radius)
    (hnc : ∀ o ∈ L, ¬(o.posX = px ∧ o.posZ = pz)) :
    (ObstacleManager.collideScan env px pz pr L = none ↔
      ∀ o ∈ L, ¬ overlaps px pz pr o) ∧
    (∀ v, ObstacleManager.collideScan env px pz pr L = some v →
      ∃ l1 o l2, L = l1 ++ o :: l2 ∧ (∀ o' ∈ l1, ¬ overlaps px pz pr o') ∧
        overlaps px pz pr o ∧
        v.1 ^ 2 + v.2 ^ 2 = (pr + o.radius - env.sqrtq (distSq px pz o)) ^ 2 ∧
        ∃ c : ℚ, 0 < c ∧ v = (c * (px - o.posX), c * (pz - o.posZ))) := by
  induction L with
  | nil =>
    constructor
    · simp [ObstacleManager.collideScan]
    · intro v hv
      simp [ObstacleManager.collideScan] at hv
  | cons o rest ih =>
    obtain ⟨hs0, hs2⟩ := hsq o (List.mem_cons_self o rest)
    have hrad : 0 ≤ o.radius := hro o (List.mem_cons_self o rest)
    have hnc0 := hnc o (List.mem_cons_self o rest)
    obtain ⟨ih1, ih2⟩ := ih (fun o' h => hsq o' (List.mem_cons_of_mem _ h))
      (fun o' h => hro o' (List.mem_cons_of_mem _ h))
      (fun o' h => hnc o' (List.mem_cons_of_mem _ h))
    set D := env.sqrtq (distSq px pz o) with hD
    have hdist : MathUtils.distance2D env.sqrtq px pz o.posX o.posZ = D := rfl
    have hminD : 0 ≤ pr + o.radius := by linarith
    have hbridge : D < pr + o.radius ↔ overlaps px pz pr o := by
      unfold overlaps
      rw [show (pr + o.radius) * (pr + o.radius) = (pr + o.radius) ^ 2 by ring]
      exact sqrt_lt_iff_sq_lt D (pr + o.radius) (distSq px pz o) hs0 hs2 hminD
    have hstep : ObstacleManager.collideScan env px pz pr (o :: rest) =
        if MathUtils.distance2D env.sqrtq px pz o.posX o.posZ < pr + o.radius then
          some ((px - o.posX) / MathUtils.distance2D env.sqrtq px pz o.posX o.posZ *
              (pr + o.radius - MathUtils.distance2D env.sqrtq px pz o.posX o.posZ),
            (pz - o.posZ) / MathUtils.distance2D env.sqrtq px pz o.posX o.posZ *
              (pr + o.radius - MathUtils.distance2D env.sqrtq px pz o.posX o.posZ))
        else ObstacleManager.collideScan env px pz pr rest := rfl
    have hd2pos : 0 < distSq px pz o := distSq_pos px pz o hnc0
    have hDne : D ≠ 0 := by
      intro h0
      rw [h0] at hs2
      simp at hs2
      exact absurd hs2 (ne_of_lt hd2pos)
    have hDpos : 0 < D := lt_of_le_of_ne hs0 (Ne.symm hDne)
    have hD2 : D ^ 2 = (px - o.posX) ^ 2 + (pz - o.posZ) ^ 2 := by
      rw [hs2]; unfold distSq; ring
    by_cases hover : D < pr + o.radius
    · rw [hstep, if_pos (by rw [hdist]; exact hover)]
      constructor
      · constructor
        · intro h
          exact absurd h (by simp)
        · intro hall
          exact absurd (hbridge.mp hover) (hall o (List.mem_cons_self o rest))
      · intro v hv
        have hv' : v = ((px - o.posX) / D * (pr + o.radius - D),
            (pz - o.posZ) / D * (pr + o.radius - D)) := by
          rw [hdist] at hv
          exact (Option.some_inj.mp hv).symm
        refine ⟨[], o, rest, rfl, by simp, hbridge.mp hover, ?_, ?_⟩
        · rw [hv']
          have hov2 : ((px - o.posX) / D * (pr + o.radius - D)) ^ 2 +
              ((pz - o.posZ) / D * (pr + o.radius - D)) ^ 2 =
              ((px - o.posX) ^ 2 + (pz - o.posZ) ^ 2) / D ^ 2 * (pr + o.radius - D) ^ 2 := by
            ring
          rw [hov2, ← hD2, div_self (pow_ne_zero 2 hDne), one_mul]
        · refine ⟨(pr + o.radius - D) / D, div_pos (by linarith) hDpos, ?_⟩
          rw [hv']
          simp only [Prod.mk.injEq]
          constructor <;> ring
    · rw [hstep, if_neg (by rw [hdist]; exact hover)]
      constructor
      · rw [ih1]
        constructor
        · intro hall o' ho'
          rcases List.mem_cons.mp ho' with rfl | h'
          · exact fun hov => hover (hbridge.mpr hov)
          · exact hall o' h'
        · intro hall o' ho'
          exact hall o' (List.mem_cons_of_mem _ ho')
      · intro v hv
        obtain ⟨l1, o', l2, heq, hno, hov, hmag, hc⟩ := ih2 v hv
        refine ⟨o :: l1, o', l2, by rw [heq, List.cons_append], ?_, hov, hmag, hc⟩
        intro o'' ho''
        rcases List.mem_cons.mp ho'' with rfl | h''
        · exact fun hovx => hover (hbridge.mpr hovx)
        · exact hno o'' h''

/-- C6 amended: `ObstacleManager.checkCollision` returns `null` exactly
when no queried obstacle overlaps the player circle, and otherwise, for
the first queried obstacle whose 2D distance is below
`playerRadius + obstacleRadius`, a pushback vector whose squared
magnitude is the squared overlap depth, directed from the obstacle center
toward the player — provided the player position does not coincide with
that obstacle's center (at the coincident position the source divides by
zero). The call leaves the obstacle list and spatial grid untouched (the
embedding returns no state because the method writes none). -/
theorem C6_first_overlap_pushback (env : Env) (om : ObstacleManager) (px pz pr : ℚ)
    (hsq : ∀ o ∈ SpatialGrid.query om.grid px pz (pr + 3),
      0 ≤ env.sqrtq (distSq px pz o) ∧ env.sqrtq (distSq px pz o) ^ 2 = distSq px pz o)
    (hr : 0 ≤ pr)
    (hro : ∀ o ∈ SpatialGrid.query om.grid px pz (pr + 3), 0 ≤ o.radius)
    (hnc : ∀ o ∈ SpatialGrid.query om.grid px pz (pr + 3), ¬(o.posX = px ∧ o.posZ = pz)) :
    (ObstacleManager.checkCollision env om px pz pr = none ↔
      ∀ o ∈ SpatialGrid.query om.grid px pz (pr + 3), ¬ overlaps px pz pr o) ∧
    (∀ v, ObstacleManager.checkCollision env om px pz pr = some v →
      ∃ l1 o l2, SpatialGrid.query om.grid px pz (pr + 3) = l1 ++ o :: l2 ∧
        (∀ o' ∈ l1, ¬ overlaps px pz pr o') ∧ overlaps px pz pr o ∧
        v.1 ^ 2 + v.2 ^ 2 = (pr + o.radius - env.sqrtq (distSq px pz o)) ^ 2 ∧
        ∃ c : ℚ, 0 < c ∧ v = (c * (px - o.posX), c * (pz - o.posZ))) := by
  have he : ObstacleManager.checkCollision env om px pz pr =
      ObstacleManager.collideScan env px pz pr
        (SpatialGrid.query om.grid px pz (pr + 3)) := rfl
  rw [he]
  exact ObstacleManager.collideScan_spec env px pz pr _ hsq hr hro hnc

/-- Witness for `C6_first_overlap_pushback`: the obstacle of `omEx`
(center `(0,0)`, radius 3) and the player at `(3, 0)` with radius 1; the
pushback is `(1, 0)`: magnitude `1 = (1+3) − 3`, pointing from the
obstacle toward the player. -/
theorem C6_first_overlap_pushback_witness :
    ∃ l1 o l2, SpatialGrid.query omEx.grid 3 0 (1 + 3) = l1 ++ o :: l2 ∧
      (∀ o' ∈ l1, ¬ overlaps 3 0 1 o') ∧ overlaps 3 0 1 o ∧
      ((1:ℚ), (0:ℚ)).1 ^ 2 + ((1:ℚ), (0:ℚ)).2 ^ 2 =
        (1 + o.radius - envSamples.sqrtq (distSq 3 0 o)) ^ 2 ∧
      ∃ c : ℚ, 0 < c ∧ ((1:ℚ), (0:ℚ)) = (c * (3 - o.posX), c * (0 - o.posZ)) :=
  (C6_first_overlap_pushback envSamples omEx 3 0 1
    (by with_unfolding_all decide) (by norm_num)
    (by with_unfolding_all decide) (by with_unfolding_all decide)).2
    (1, 0) (by with_unfolding_all decide)

/-- C6 counterexample: with the player exactly at the obstacle's center
(distance 0, overlap depth `1 + 3 = 4`), the source computes `0/0`; the
returned vector (modelled `(0, 0)`, `NaN` in JavaScript) does not have
magnitude equal to the overlap depth, refuting the claim's universal
"for every player position". -/
theorem C6_counterexample :
    ObstacleManager.checkCollision envSamples omEx 0 0 1 = some (0, 0) ∧
    overlaps 0 0 1 oEx ∧
    envSamples.sqrtq (distSq 0 0 oEx) = 0 ∧
    ¬((0:ℚ) ^ 2 + (0:ℚ) ^ 2 =
        (1 + oEx.radius - envSamples.sqrtq (distSq 0 0 oEx)) ^ 2) := by
  with_unfolding_all decide

/-- Points for a correct answer are nonnegative for every difficulty. -/
theorem Game.calculatePoints_nonneg (d : Difficulty) : 0 ≤ Game.calculatePoints d := by
  cases d <;> with_unfolding_all decide

/-- `frameAssignElapsed` leaves the score unchanged. -/
theorem Game.frameAssignElapsed_score (now : ℤ) (s : GameS) :
    (Game.frameAssignElapsed now s).score = s.score := rfl

/-- Player update and obstacle pushback leave the score unchanged. -/
theorem Game.frameMove_score (env : Env) (s : GameS) :
    (Game.frameMove env s).score = s.score := by
  unfold Game.frameMove
  cases ObstacleManager.checkCollision env s.om (s.player.update env).posX
    (s.player.update env).posZ <;> rfl

/-- Flag handling can only keep the score or floor a penalty at zero. -/
theorem Game.frameFlag_score (s : GameS) (h : 0 ≤ s.score) :
    0 ≤ (Game.frameFlag s).score := by
  unfold Game.frameFlag
  split_ifs with hg
  · rcases hres : GateManager.checkFlagCollision s.player.posX s.player.posZ s.gates with
      ⟨t, g⟩
    cases t <;> cases g <;>
      first
        | exact h
        | exact le_max_left 0 _
  · exact h

/-- Gate-trigger handling leaves the score unchanged. -/
theorem Game.frameGate_score (s : GameS) : (Game.frameGate s).score = s.score := by
  unfold Game.frameGate Game.pauseGame
  split_ifs with hg
  · cases (GateManager.checkCollision s.player.posX s.player.posZ s.gates).1 <;> rfl
  · rfl

/-- Finish-line handling leaves the score unchanged. -/
theorem Game.frameFinish_score (s : GameS) : (Game.frameFinish s).score = s.score := by
  unfold Game.frameFinish Game.endGame
  split_ifs <;> rfl

/-- Every event preserves nonnegativity of the score. -/
theorem Game.score_nonneg_step (env : Env) (s : GameS) (e : GEvent)
    (h : 0 ≤ s.score) : 0 ≤ (Game.step env s e).score := by
  cases e with
  | startGame d now =>
    simp only [Game.step, Game.startGame]
    norm_num
  | keyDown k =>
    simp only [Game.step, Game.keyDown]
    split_ifs <;> exact h
  | keyUp k =>
    simp only [Game.step, Game.keyUp]
    split_ifs <;> exact h
  | frame now =>
    simp only [Game.step, Game.frame]
    split_ifs with hp
    · rw [Game.frameFinish_score, Game.frameGate_score]
      apply Game.frameFlag_score
      rw [Game.frameMove_score, Game.frameAssignElapsed_score]
      exact h
    · exact h
  | answer b =>
    simp only [Game.step, Game.answer, Game.endGame, Game.resumeGame,
      MathUtils.applyScorePenalty]
    split_ifs with h1 h2 h3 h4 h5
    all_goals
      first
        | exact h
        | exact add_nonneg h (Game.calculatePoints_nonneg _)
        | exact le_max_left 0 _

/-- C9: after any sequence of input events (scoring events included:
correct and wrong answers, crashes, tumbles), the race score satisfies
`score ≥ 0` — `applyScorePenalty` floors every penalty at zero and all
additions are nonnegative. -/
theorem C9_score_nonneg (env : Env) (placements : List (ℚ × ℚ × ℚ × ObstacleKind))
    (stream : List ℚ) (evs : List GEvent) :
    0 ≤ (Game.run env evs (Game.init env placements stream)).score := by
  suffices h : ∀ s : GameS, 0 ≤ s.score → 0 ≤ (Game.run env evs s).score from
    h _ (le_refl 0)
  induction evs with
  | nil => exact fun s hs => hs
  | cons e rest ih => exact fun s hs => ih _ (Game.score_nonneg_step env s e hs)

/-- On a Playing, unpaused tick, `animate()` runs the elapsed-time
assignment followed by movement, flag, gate and finish handling. -/
theorem Game.frame_playing (env : Env) (now : ℤ) (t : GameS)
    (h1 : t.gameState = .playing) (h2 : t.isPaused = false) :
    Game.frame env now t =
      Game.frameFinish (Game.frameGate (Game.frameFlag
        (Game.frameMove env (Game.frameAssignElapsed now t)))) := by
  unfold Game.frame
  rw [if_pos (show (t.gameState = GState.playing && !t.isPaused) = true by
    rw [h1, h2]; rfl)]

/-- C10: on every frame tick taken in the Playing (unpaused) state the
controller first assigns `elapsedTime := now − startTime`, before any
collision handling; hence the frame's outcome is independent of the
incoming `elapsedTime`, so penalty milliseconds added to it by an earlier
crash, tumble or wrong answer are discarded by the next Playing frame. -/
theorem C10_elapsed_reset_each_frame (env : Env) (s : GameS) (now e2 : ℤ)
    (hplay : s.gameState = .playing) (hpause : s.isPaused = false) :
    Game.frame env now { s with elapsedTime := e2 } = Game.frame env now s ∧
    (Game.frameAssignElapsed now s).elapsedTime = now - s.startTime ∧
    Game.frame env now s =
      Game.frameFinish (Game.frameGate (Game.frameFlag
        (Game.frameMove env (Game.frameAssignElapsed now s)))) := by
  refine ⟨?_, rfl, Game.frame_playing env now s hplay hpause⟩
  rw [Game.frame_playing env now s hplay hpause,
    Game.frame_playing env now { s with elapsedTime := e2 }
      (show ({ s with elapsedTime := e2 } : GameS).gameState = .playing from hplay)
      (show ({ s with elapsedTime := e2 } : GameS).isPaused = false from hpause)]
  rfl

/-- Witness for `C10_elapsed_reset_each_frame` at a concrete
Playing-state game, frame time 777 and a stale elapsed time 999. -/
theorem C10_elapsed_reset_each_frame_witness :
    Game.frame envZero 777 { gamePlaying with elapsedTime := 999 } =
      Game.frame envZero 777 gamePlaying ∧
    (Game.frameAssignElapsed 777 gamePlaying).elapsedTime = 777 - gamePlaying.startTime ∧
    Game.frame envZero 777 gamePlaying =
      Game.frameFinish (Game.frameGate (Game.frameFlag
        (Game.frameMove envZero (Game.frameAssignElapsed 777 gamePlaying)))) :=
  C10_elapsed_reset_each_frame envZero gamePlaying 777 999 rfl rfl

/-- `clamp(v, -m, m)` lands in `[-m, m]` whenever `0 ≤ m`. -/
theorem abs_clampQ_le (v m : ℚ) (hm : 0 ≤ m) : |MathUtils.clampQ v (-m) m| ≤ m := by
  unfold MathUtils.clampQ
  rw [abs_le]
  constructor
  · exact le_max_left _ _
  · exact max_le (by linarith) (min_le_left m v)

/-- Every `SkierController` operation keeps `|turnAngle| ≤ maxTurnAngle`:
`update` clamps it, crash recovery and reset zero it, and no other
operation writes it. -/
theorem Skier.turnAngle_le_applyOp (env : Env) (s : Skier) (op : SkierOp)
    (hm : 0 ≤ env.maxTurnAngle) (h : |s.turnAngle| ≤ env.maxTurnAngle) :
    |(Skier.applyOp env s op).turnAngle| ≤ env.maxTurnAngle := by
  cases op with
  | update =>
    show |(Skier.update env s).turnAngle| ≤ env.maxTurnAngle
    simp only [Skier.update, Skier.updateCrashState, Skier.recoverFromCrash]
    split_ifs <;>
      first
        | exact h
        | (show |(0 : ℚ)| ≤ env.maxTurnAngle; simpa using hm)
        | exact abs_clampQ_le _ _ hm
  | keyDown k => cases k <;> exact h
  | keyUp k => cases k <;> exact h
  | clearInput => exact h
  | applyCollision p => exact h
  | tumble =>
    show |(Skier.tumble s).turnAngle| ≤ env.maxTurnAngle
    unfold Skier.tumble
    split_ifs <;> exact h
  | crash z =>
    show |(Skier.crash z s).turnAngle| ≤ env.maxTurnAngle
    unfold Skier.crash
    split_ifs
    · exact h
    · cases z <;> exact h
  | reset =>
    show |(Skier.reset env s).turnAngle| ≤ env.maxTurnAngle
    simp only [Skier.reset, abs_zero]
    exact hm

/-- C8: after any sequence of controller operations (frame updates with
arbitrary inputs, pushbacks, tumbles, crashes, recoveries, resets) from
the initial state, the skier's turn angle satisfies
`|turnAngle| ≤ maxTurnAngle` (for the nonnegative source constant π/4). -/
theorem C8_turn_angle_bounded (env : Env) (ops : List SkierOp)
    (hm : 0 ≤ env.maxTurnAngle) :
    |(Skier.runOps env ops (Skier.init env)).turnAngle| ≤ env.maxTurnAngle := by
  suffices h : ∀ s : Skier, |s.turnAngle| ≤ env.maxTurnAngle →
      |(Skier.runOps env ops s).turnAngle| ≤ env.maxTurnAngle by
    exact h _ (by simpa [Skier.init] using hm)
  induction ops with
  | nil => exact fun s hs => hs
  | cons op rest ih => exact fun s hs => ih _ (Skier.turnAngle_le_applyOp env s op hm hs)

/-- Witness for `C8_turn_angle_bounded`: a concrete operation sequence
steering, updating, tumbling, crashing and recovering. -/
theorem C8_turn_angle_bounded_witness :
    |(Skier.runOps envZero
        [.keyDown .arrowLeft, .update, .update, .tumble, .update,
         .crash (some 5), .update] (Skier.init envZero)).turnAngle| ≤
      envZero.maxTurnAngle :=
  C8_turn_angle_bounded envZero
    [.keyDown .arrowLeft, .update, .update, .tumble, .update, .crash (some 5), .update]
    (by norm_num [envZero])

/-- Everything in a cell after `insert` was there before or is the
inserted object. -/
theorem SpatialGrid.mem_insert (cells : SpatialGrid.Cells) (o o' : Obstacle)
    (key : ℤ × ℤ) (h : o' ∈ SpatialGrid.insert cells o key) :
    o' ∈ cells key ∨ o' = o := by
  unfold SpatialGrid.insert at h
  split_ifs at h with hc
  · rcases List.mem_append.mp h with h1 | h1
    · exact Or.inl h1
    · exact Or.inr (List.mem_singleton.mp h1)
  · exact Or.inl h

/-- Deduplication only drops elements. -/
theorem SpatialGrid.mem_dedupFirstGo (seen l : List Obstacle) (o : Obstacle)
    (h : o ∈ SpatialGrid.dedupFirstGo seen l) : o ∈ l := by
  induction l generalizing seen with
  | nil => simpa [SpatialGrid.dedupFirstGo] using h
  | cons x rest ih =>
    unfold SpatialGrid.dedupFirstGo at h
    split_ifs at h with hx
    · exact List.mem_cons_of_mem _ (ih _ h)
    · rcases List.mem_cons.mp h with rfl | h1
      · exact List.mem_cons_self _ _
      · exact List.mem_cons_of_mem _ (ih _ h1)

/-- Every obstacle produced by `query` lives in some grid cell. -/
theorem SpatialGrid.mem_query (cells : SpatialGrid.Cells) (x z r : ℚ) (o : Obstacle)
    (h : o ∈ SpatialGrid.query cells x z r) : ∃ key, o ∈ cells key := by
  unfold SpatialGrid.query at h
  have h1 := SpatialGrid.mem_dedupFirstGo [] _ o h
  rcases List.mem_flatMap.mp h1 with ⟨cx, _, h2⟩
  rcases List.mem_flatMap.mp h2 with ⟨cz, _, h3⟩
  exact ⟨(cx, cz), h3⟩

/-- In an `ObstacleManager` built by `addObstacle` calls, every obstacle
registered in the grid is in the obstacle list. -/
theorem ObstacleManager.build_grid_sub (env : Env)
    (placements : List (ℚ × ℚ × ℚ × ObstacleKind)) :
    ∀ key o, o ∈ (ObstacleManager.build env placements).grid key →
      o ∈ (ObstacleManager.build env placements).obstacles := by
  suffices h : ∀ (ps : List (ℚ × ℚ × ℚ × ObstacleKind)) (om : ObstacleManager),
      (∀ key o, o ∈ om.grid key → o ∈ om.obstacles) →
      ∀ key o,
        o ∈ (ps.foldl (fun om p => ObstacleManager.addObstacle env p.1 p.2.1 p.2.2.1 p.2.2.2 om)
          om).grid key →
        o ∈ (ps.foldl (fun om p => ObstacleManager.addObstacle env p.1 p.2.1 p.2.2.1 p.2.2.2 om)
          om).obstacles by
    exact h placements ObstacleManager.empty (by intro key o ho; exact absurd ho (by
      simp [ObstacleManager.empty, SpatialGrid.emptyCells]))
  intro ps
  induction ps with
  | nil => intro om hom; exact hom
  | cons p rest ih =>
    intro om hom
    apply ih
    intro key o ho
    rcases SpatialGrid.mem_insert om.grid _ o key ho with h1 | h1
    · exact List.mem_append_left _ (hom key o h1)
    · exact List.mem_append_right _ (by simp [h1])

/-- The scan reports no collision when no scanned obstacle passes the
distance test. -/
theorem ObstacleManager.collideScan_none (env : Env) (px pz pr : ℚ) (L : List Obstacle)
    (h : ∀ o ∈ L, ¬(MathUtils.distance2D env.sqrtq px pz o.posX o.posZ < pr + o.radius)) :
    ObstacleManager.collideScan env px pz pr L = none := by
  induction L with
  | nil => rfl
  | cons o rest ih =>
    simp only [ObstacleManager.collideScan]
    rw [if_neg (h o (List.mem_cons_self o rest))]
    exact ih fun o' h' => h o' (List.mem_cons_of_mem _ h')

/-- While the skier is inside the ski path (`|x| ≤ 25`), the obstacle
query finds no overlap: every obstacle is placed at `|x| ≥ 32` with
radius `≤ 2.6` (the `createForest`/`createRocks` ranges), so all scanned
distances are at least `√49 = 7 > 1 + 2.6`. -/
theorem ObstacleManager.checkCollision_none_inside_path (env : Env)
    (om : ObstacleManager) (px pz : ℚ)
    (hplace : ∀ o ∈ om.obstacles, 32 ≤ |o.posX| ∧ o.radius ≤ 13/5)
    (hgrid : ∀ key o, o ∈ om.grid key → o ∈ om.obstacles)
    (hsq : ∀ q : ℚ, 49 ≤ q → 18/5 ≤ env.sqrtq q)
    (hx : |px| ≤ TERRAIN.SKI_PATH_WIDTH) :
    ObstacleManager.checkCollision env om px pz PLAYER.COLLISION_RADIUS = none := by
  apply ObstacleManager.collideScan_none
  intro o ho
  obtain ⟨key, hkey⟩ := SpatialGrid.mem_query om.grid px pz _ o ho
  obtain ⟨h32, hrad⟩ := hplace o (hgrid key o hkey)
  rw [TERRAIN.SKI_PATH_WIDTH] at hx
  have h7 : 7 ≤ |o.posX - px| := by
    have := abs_sub_abs_le_abs_sub o.posX px
    linarith
  have h49 : 49 ≤ (o.posX - px) * (o.posX - px) := by
    have habs : |o.posX - px| * |o.posX - px| = (o.posX - px) * (o.posX - px) :=
      abs_mul_abs_self _
    nlinarith [abs_nonneg (o.posX - px)]
  have hd2 : 49 ≤ (o.posX - px) * (o.posX - px) + (o.posZ - pz) * (o.posZ - pz) := by
    nlinarith [mul_self_nonneg (o.posZ - pz)]
  have hdist : 18/5 ≤ MathUtils.distance2D env.sqrtq px pz o.posX o.posZ := hsq _ hd2
  rw [PLAYER.COLLISION_RADIUS]
  push_neg
  linarith

/-- `update()` keeps the lateral position inside the ski path: the Normal
branch clamps it, crash recovery recenters to `x = 0`, and the other
branches leave it unchanged. -/
theorem Skier.update_posX_le (env : Env) (s : Skier)
    (h : |s.posX| ≤ TERRAIN.SKI_PATH_WIDTH) :
    |(Skier.update env s).posX| ≤ TERRAIN.SKI_PATH_WIDTH := by
  simp only [Skier.update, Skier.updateCrashState, Skier.recoverFromCrash]
  split_ifs <;>
    first
      | exact h
      | (cases s.recoveryPosition <;>
          first
            | exact h
            | (show |(0 : ℚ)| ≤ TERRAIN.SKI_PATH_WIDTH
               norm_num [TERRAIN.SKI_PATH_WIDTH]))
      | exact abs_clampQ_le _ _ (by norm_num [TERRAIN.SKI_PATH_WIDTH])

/-- `crash()` never moves the skier laterally. -/
theorem Skier.crash_posX (z : Option ℚ) (p : Skier) :
    (Skier.crash z p).posX = p.posX := by
  unfold Skier.crash
  split_ifs
  · rfl
  · cases z <;> rfl

/-- `tumble()` never moves the skier laterally. -/
theorem Skier.tumble_posX (p : Skier) : (Skier.tumble p).posX = p.posX := by
  unfold Skier.tumble
  split_ifs <;> rfl

/-- The flag-collision stage never moves the skier laterally. -/
theorem Game.frameFlag_posX (s : GameS) :
    (Game.frameFlag s).player.posX = s.player.posX := by
  unfold Game.frameFlag
  split_ifs with hg
  · rcases hres : GateManager.checkFlagCollision s.player.posX s.player.posZ s.gates with
      ⟨t, g⟩
    cases t <;> cases g <;>
      first
        | rfl
        | exact Skier.crash_posX _ _
        | exact Skier.tumble_posX _
  · rfl

/-- The gate-trigger stage never moves the skier laterally
(`clearInput` only clears movement flags). -/
theorem Game.frameGate_posX (s : GameS) :
    (Game.frameGate s).player.posX = s.player.posX := by
  unfold Game.frameGate Game.pauseGame Skier.clearInput
  split_ifs with hg
  · cases (GateManager.checkCollision s.player.posX s.player.posZ s.gates).1 <;> rfl
  · rfl

/-- The finish-line stage never touches the skier. -/
theorem Game.frameFinish_player (s : GameS) :
    (Game.frameFinish s).player = s.player := by
  unfold Game.frameFinish Game.endGame
  split_ifs <;> rfl

/-- No stage of the frame, nor any other event, writes the obstacle
manager: it is built once at init and read-only afterwards. -/
theorem Game.frameMove_om (env : Env) (s : GameS) : (Game.frameMove env s).om = s.om := by
  unfold Game.frameMove
  cases ObstacleManager.checkCollision env s.om (s.player.update env).posX
    (s.player.update env).posZ <;> rfl

theorem Game.frameFlag_om (s : GameS) : (Game.frameFlag s).om = s.om := by
  unfold Game.frameFlag
  split_ifs with hg
  · rcases hres : GateManager.checkFlagCollision s.player.posX s.player.posZ s.gates with
      ⟨t, g⟩
    cases t <;> cases g <;> rfl
  · rfl

theorem Game.frameGate_om (s : GameS) : (Game.frameGate s).om = s.om := by
  unfold Game.frameGate Game.pauseGame
  split_ifs with hg
  · cases (GateManager.checkCollision s.player.posX s.player.posZ s.gates).1 <;> rfl
  · rfl

theorem Game.frameFinish_om (s : GameS) : (Game.frameFinish s).om = s.om := by
  unfold Game.frameFinish Game.endGame
  split_ifs <;> rfl

theorem Game.step_om (env : Env) (s : GameS) (e : GEvent) :
    (Game.step env s e).om = s.om := by
  cases e with
  | startGame d now => rfl
  | keyDown k =>
    unfold Game.step Game.keyDown
    split_ifs <;> rfl
  | keyUp k =>
    unfold Game.step Game.keyUp
    split_ifs <;> rfl
  | frame now =>
    unfold Game.step Game.frame
    split_ifs with hp
    · rw [Game.frameFinish_om, Game.frameGate_om, Game.frameFlag_om, Game.frameMove_om]
      rfl
    · rfl
  | answer b =>
    simp only [Game.step, Game.answer, Game.endGame, Game.resumeGame]
    split_ifs <;> rfl

/-- One Playing frame keeps the skier inside the ski path: `update`
clamps (or recenters) the lateral position, and with validly placed
obstacles the pushback branch cannot fire inside the path. -/
theorem Game.frame_posX_le (env : Env) (now : ℤ) (s : GameS)
    (hplace : ∀ o ∈ s.om.obstacles, 32 ≤ |o.posX| ∧ o.radius ≤ 13/5)
    (hgrid : ∀ key o, o ∈ s.om.grid key → o ∈ s.om.obstacles)
    (hsq : ∀ q : ℚ, 49 ≤ q → 18/5 ≤ env.sqrtq q)
    (h : |s.player.posX| ≤ TERRAIN.SKI_PATH_WIDTH) :
    |(Game.frame env now s).player.posX| ≤ TERRAIN.SKI_PATH_WIDTH := by
  unfold Game.frame
  split_ifs with hp
  · rw [Game.frameFinish_player, Game.frameGate_posX, Game.frameFlag_posX]
    have hup : |((Game.frameAssignElapsed now s).player.update env).posX| ≤
        TERRAIN.SKI_PATH_WIDTH := Skier.update_posX_le env s.player h
    have hnone : ObstacleManager.checkCollision env (Game.frameAssignElapsed now s).om
        ((Game.frameAssignElapsed now s).player.update env).posX
        ((Game.frameAssignElapsed now s).player.update env).posZ
        PLAYER.COLLISION_RADIUS = none :=
      ObstacleManager.checkCollision_none_inside_path env s.om _ _ hplace hgrid hsq hup
    unfold Game.frameMove
    rw [hnone]
    exact hup
  · exact h

/-- Every event preserves the lateral-position bound. -/
theorem Game.posX_le_step (env : Env) (s : GameS) (e : GEvent)
    (hplace : ∀ o ∈ s.om.obstacles, 32 ≤ |o.posX| ∧ o.radius ≤ 13/5)
    (hgrid : ∀ key o, o ∈ s.om.grid key → o ∈ s.om.obstacles)
    (hsq : ∀ q : ℚ, 49 ≤ q → 18/5 ≤ env.sqrtq q)
    (h : |s.player.posX| ≤ TERRAIN.SKI_PATH_WIDTH) :
    |(Game.step env s e).player.posX| ≤ TERRAIN.SKI_PATH_WIDTH := by
  cases e with
  | startGame d now =>
    show |PLAYER.START_X| ≤ TERRAIN.SKI_PATH_WIDTH
    norm_num [PLAYER.START_X, TERRAIN.SKI_PATH_WIDTH]
  | keyDown k =>
    unfold Game.step Game.keyDown
    split_ifs
    · cases k <;> exact h
    · exact h
  | keyUp k =>
    unfold Game.step Game.keyUp
    split_ifs
    · cases k <;> exact h
    · exact h
  | frame now => exact Game.frame_posX_le env now s hplace hgrid hsq h
  | answer b =>
    simp only [Game.step, Game.answer, Game.endGame, Game.resumeGame]
    split_ifs <;> exact h

/-- C4: after any event sequence (frame updates, obstacle pushbacks,
tumbles, crashes, recoveries), the skier's lateral position satisfies
`|x| ≤ SKI_PATH_WIDTH`, given obstacles placed as the scene places them
(`|x| ≥ 32`, radius `≤ 2.6`) and a square root lower-bounded as the real
one is (`√q ≥ 3.6` for `q ≥ 49`). -/
theorem C4_lateral_position_bounded (env : Env)
    (placements : List (ℚ × ℚ × ℚ × ObstacleKind)) (stream : List ℚ)
    (evs : List GEvent)
    (hplace : ∀ o ∈ (Game.init env placements stream).om.obstacles,
      32 ≤ |o.posX| ∧ o.radius ≤ 13/5)
    (hsq : ∀ q : ℚ, 49 ≤ q → 18/5 ≤ env.sqrtq q) :
    |(Game.run env evs (Game.init env placements stream)).player.posX| ≤
      TERRAIN.SKI_PATH_WIDTH := by
  suffices h : ∀ s : GameS,
      (∀ o ∈ s.om.obstacles, 32 ≤ |o.posX| ∧ o.radius ≤ 13/5) →
      (∀ key o, o ∈ s.om.grid key → o ∈ s.om.obstacles) →
      |s.player.posX| ≤ TERRAIN.SKI_PATH_WIDTH →
      |(Game.run env evs s).player.posX| ≤ TERRAIN.SKI_PATH_WIDTH by
    refine h _ hplace (ObstacleManager.build_grid_sub env placements) ?_
    show |PLAYER.START_X| ≤ TERRAIN.SKI_PATH_WIDTH
    norm_num [PLAYER.START_X, TERRAIN.SKI_PATH_WIDTH]
  induction evs with
  | nil => exact fun s _ _ hx => hx
  | cons e rest ih =>
    intro s h1 h2 hx
    refine ih (Game.step env s e) ?_ ?_ (Game.posX_le_step env s e h1 h2 hsq hx)
    · rw [Game.step_om]; exact h1
    · rw [Game.step_om]; exact h2

/-- Witness for `C4_lateral_position_bounded`: the single-tree placement
and a concrete race event sequence, with an exact-enough square root. -/
theorem C4_lateral_position_bounded_witness :
    |(Game.run envSamples raceEventsPhase1
        (Game.init envSamples oneTreePlacement [])).player.posX| ≤
      TERRAIN.SKI_PATH_WIDTH :=
  C4_lateral_position_bounded envSamples oneTreePlacement [] raceEventsPhase1
    (by with_unfolding_all decide)
    (fun q hq => by
      show 18/5 ≤ sqrtSamples q
      unfold sqrtSamples
      rw [if_neg (by linarith), if_pos hq]
      norm_num)

/-- Counting Triggered-but-not-Passed gates through a cons. -/
theorem triggeredNotPassedCount_cons (g : Gate) (l : List Gate) :
    triggeredNotPassedCount (g :: l) =
      (if g.triggered && !g.passed then 1 else 0) + triggeredNotPassedCount l := by
  unfold triggeredNotPassedCount
  rw [List.filter_cons]
  split_ifs with hc
  · simp [Nat.add_comm]
  · simp

/-- A trigger scan that reports no index leaves the gate list unchanged. -/
theorem GateManager.checkCollisionGo_none_gates (px pz : ℚ) (gates : List Gate)
    (h : (GateManager.checkCollisionGo px pz gates).1 = none) :
    (GateManager.checkCollisionGo px pz gates).2 = gates := by
  induction gates with
  | nil => rfl
  | cons g rest ih =>
    simp only [GateManager.checkCollisionGo] at h ⊢
    split_ifs at h ⊢ with h1 h2
    all_goals
      first
        | rw [ih h]
        | (exact absurd h (by simp))

/-- A trigger scan that reports an index flips exactly one Pending gate
to Triggered: the Triggered-but-not-Passed count grows by one. -/
theorem GateManager.checkCollisionGo_count (px pz : ℚ) (gates : List Gate) (i : ℕ)
    (h : (GateManager.checkCollisionGo px pz gates).1 = some i) :
    triggeredNotPassedCount (GateManager.checkCollisionGo px pz gates).2 =
      triggeredNotPassedCount gates + 1 := by
  induction gates with
  | nil => simp [GateManager.checkCollisionGo] at h
  | cons g rest ih =>
    simp only [GateManager.checkCollisionGo] at h ⊢
    split_ifs at h ⊢ with h1 h2
    · show triggeredNotPassedCount (g :: (GateManager.checkCollisionGo px pz rest).2) =
        triggeredNotPassedCount (g :: rest) + 1
      rw [triggeredNotPassedCount_cons, triggeredNotPassedCount_cons, ih h]
      ring
    · show triggeredNotPassedCount ({ g with triggered := true } :: rest) =
        triggeredNotPassedCount (g :: rest) + 1
      simp only [Bool.or_eq_true, not_or, Bool.not_eq_true] at h1
      rw [triggeredNotPassedCount_cons, triggeredNotPassedCount_cons]
      simp [h1.1, h1.2, Nat.add_comm]
    · show triggeredNotPassedCount (g :: (GateManager.checkCollisionGo px pz rest).2) =
        triggeredNotPassedCount (g :: rest) + 1
      rw [triggeredNotPassedCount_cons, triggeredNotPassedCount_cons, ih h]
      ring

/-- `passGate()` marks the first Triggered-but-not-Passed gate Passed
(the count drops by one); when there is none, it is a no-op and the
count is zero. -/
theorem GateManager.passGateGo_spec (gates : List Gate) :
    ((GateManager.passGateGo gates).2 = true →
      triggeredNotPassedCount (GateManager.passGateGo gates).1 + 1 =
        triggeredNotPassedCount gates) ∧
    ((GateManager.passGateGo gates).2 = false →
      (GateManager.passGateGo gates).1 = gates ∧ triggeredNotPassedCount gates = 0) := by
  induction gates with
  | nil =>
    constructor
    · intro h; simp [GateManager.passGateGo] at h
    · intro _; exact ⟨rfl, rfl⟩
  | cons g rest ih =>
    simp only [GateManager.passGateGo]
    split_ifs with h1
    · constructor
      · intro _
        show triggeredNotPassedCount ({ g with passed := true } :: rest) + 1 =
          triggeredNotPassedCount (g :: rest)
        rw [triggeredNotPassedCount_cons, triggeredNotPassedCount_cons]
        simp only [Bool.and_eq_true, Bool.not_eq_true'] at h1
        simp [h1.1, h1.2, Nat.add_comm]
      · intro h; simp at h
    · constructor
      · intro h
        show triggeredNotPassedCount (g :: (GateManager.passGateGo rest).1) + 1 =
          triggeredNotPassedCount (g :: rest)
        rw [triggeredNotPassedCount_cons, triggeredNotPassedCount_cons]
        have := ih.1 h
        omega
      · intro h
        obtain ⟨he, hc⟩ := ih.2 h
        constructor
        · show g :: (GateManager.passGateGo rest).1 = g :: rest
          rw [he]
        · rw [triggeredNotPassedCount_cons, hc]
          have hg0 : (g.triggered && !g.passed) = false := by
            simpa using h1
          simp [hg0]

/-- The movement stage touches only the player. -/
theorem Game.frameMove_raceFields (env : Env) (s : GameS) :
    (Game.frameMove env s).gates = s.gates ∧
    (Game.frameMove env s).gameState = s.gameState ∧
    (Game.frameMove env s).correctAnswers = s.correctAnswers ∧
    (Game.frameMove env s).totalQuestions = s.totalQuestions := by
  unfold Game.frameMove
  cases ObstacleManager.checkCollision env s.om (s.player.update env).posX
    (s.player.update env).posZ <;> exact ⟨rfl, rfl, rfl, rfl⟩

/-- The flag stage touches only player, score and elapsed time. -/
theorem Game.frameFlag_raceFields (s : GameS) :
    (Game.frameFlag s).gates = s.gates ∧
    (Game.frameFlag s).gameState = s.gameState ∧
    (Game.frameFlag s).correctAnswers = s.correctAnswers ∧
    (Game.frameFlag s).totalQuestions = s.totalQuestions := by
  unfold Game.frameFlag
  split_ifs with hg
  · rcases hres : GateManager.checkFlagCollision s.player.posX s.player.posZ s.gates with
      ⟨t, g⟩
    cases t <;> cases g <;> exact ⟨rfl, rfl, rfl, rfl⟩
  · exact ⟨rfl, rfl, rfl, rfl⟩

/-- The finish stage keeps gates and answer counters, and either leaves
the game state alone or ends the race. -/
theorem Game.frameFinish_raceFields (s : GameS) :
    (Game.frameFinish s).gates = s.gates ∧
    (Game.frameFinish s).correctAnswers = s.correctAnswers ∧
    (Game.frameFinish s).totalQuestions = s.totalQuestions ∧
    ((Game.frameFinish s).gameState = s.gameState ∨
      (Game.frameFinish s).gameState = .ended) := by
  unfold Game.frameFinish Game.endGame
  split_ifs
  · exact ⟨rfl, rfl, rfl, Or.inr rfl⟩
  · exact ⟨rfl, rfl, rfl, Or.inl rfl⟩

/-- The gate stage keeps the answer counters and either changes nothing
(no trigger) or triggers one gate and pauses into Question state. -/
theorem Game.frameGate_spec (s : GameS) :
    (Game.frameGate s).correctAnswers = s.correctAnswers ∧
    (Game.frameGate s).totalQuestions = s.totalQuestions ∧
    (((Game.frameGate s).gates = s.gates ∧ (Game.frameGate s).gameState = s.gameState) ∨
      (triggeredNotPassedCount (Game.frameGate s).gates =
          triggeredNotPassedCount s.gates + 1 ∧
        (Game.frameGate s).gameState = .question)) := by
  unfold Game.frameGate Game.pauseGame
  split_ifs with hg
  · cases hres : (GateManager.checkCollision s.player.posX s.player.posZ s.gates).1 with
    | none =>
      refine ⟨rfl, rfl, Or.inl ⟨?_, rfl⟩⟩
      exact GateManager.checkCollisionGo_none_gates _ _ _ hres
    | some i =>
      refine ⟨rfl, rfl, Or.inr ⟨?_, rfl⟩⟩
      exact GateManager.checkCollisionGo_count _ _ _ i hres
  · exact ⟨rfl, rfl, Or.inl ⟨rfl, rfl⟩⟩

/-- Reset gates are all un-triggered and un-passed. -/
theorem GateManager.resetGates_count (gates : List Gate) :
    triggeredNotPassedCount (GateManager.resetGates gates) = 0 := by
  unfold GateManager.resetGates
  induction gates with
  | nil => rfl
  | cons g rest ih =>
    rw [List.map_cons, triggeredNotPassedCount_cons]
    simpa using ih

/-- Freshly created gates are all un-triggered and un-passed. -/
theorem GateManager.createGatesGo_count (env : Env)
    (om : Option (List Obstacle)) (rem i : ℕ) (z : ℚ) (st : List ℚ) :
    triggeredNotPassedCount (GateManager.createGatesGo env om rem i z st) = 0 := by
  induction rem generalizing i z st with
  | zero => rfl
  | succ n ih =>
    rw [GateManager.createGatesGo, triggeredNotPassedCount_cons]
    simpa [GateManager.createGate] using ih _ _ _

/-- `C1Inv` only depends on gates, game state and the answer counters. -/
theorem C1Inv_of_fields_eq (s t : GameS) (h : C1Inv s)
    (hg : t.gates = s.gates) (hgs : t.gameState = s.gameState)
    (hca : t.correctAnswers = s.correctAnswers)
    (htq : t.totalQuestions = s.totalQuestions) : C1Inv t := by
  obtain ⟨h1, h2, h3⟩ := h
  refine ⟨?_, ?_, ?_⟩
  · rw [hg, hgs, hca, htq]; exact h1
  · rw [hca, htq]; exact h2
  · rw [hgs, hg]; exact h3

/-- Every event preserves the corrected gate-state invariant `C1Inv`. -/
theorem Game.C1Inv_step (env : Env) (s : GameS) (e : GEvent) (h : C1Inv s) :
    C1Inv (Game.step env s e) := by
  obtain ⟨hb, hca, hq⟩ := h
  cases e with
  | startGame d now =>
    refine ⟨?_, le_refl 0, fun hcon => by simp [Game.step, Game.startGame] at hcon⟩
    show triggeredNotPassedCount (GateManager.resetGates s.gates) + 0 ≤
      0 + (if (Game.startGame env d now s).gameState = .playing then 0 else 1)
    rw [GateManager.resetGates_count]
    omega
  | keyDown k =>
    refine C1Inv_of_fields_eq s _ ⟨hb, hca, hq⟩ ?_ ?_ ?_ ?_ <;>
      (unfold Game.step Game.keyDown; split_ifs <;> rfl)
  | keyUp k =>
    refine C1Inv_of_fields_eq s _ ⟨hb, hca, hq⟩ ?_ ?_ ?_ ?_ <;>
      (unfold Game.step Game.keyUp; split_ifs <;> rfl)
  | frame now =>
    unfold Game.step Game.frame
    split_ifs with hp
    · have hps : s.gameState = .playing := by
        simp only [Bool.and_eq_true, decide_eq_true_eq] at hp
        exact hp.1
      have hb' : triggeredNotPassedCount s.gates + s.correctAnswers ≤ s.totalQuestions := by
        rw [hps] at hb
        simpa using hb
      obtain ⟨m1, m2, m3, m4⟩ := Game.frameMove_raceFields env (Game.frameAssignElapsed now s)
      obtain ⟨f1, f2, f3, f4⟩ :=
        Game.frameFlag_raceFields (Game.frameMove env (Game.frameAssignElapsed now s))
      obtain ⟨g1, g2, g3⟩ :=
        Game.frameGate_spec
          (Game.frameFlag (Game.frameMove env (Game.frameAssignElapsed now s)))
      obtain ⟨e1, e2, e3, e4⟩ :=
        Game.frameFinish_raceFields
          (Game.frameGate (Game.frameFlag (Game.frameMove env (Game.frameAssignElapsed now s))))
      have a1 : (Game.frameAssignElapsed now s).gates = s.gates := rfl
      have a2 : (Game.frameAssignElapsed now s).gameState = s.gameState := rfl
      have a3 : (Game.frameAssignElapsed now s).correctAnswers = s.correctAnswers := rfl
      have a4 : (Game.frameAssignElapsed now s).totalQuestions = s.totalQuestions := rfl
      rcases g3 with ⟨gA, gB⟩ | ⟨gA, gB⟩
      · refine ⟨?_, ?_, ?_⟩
        · rw [e1, e2, e3, gA, g1, g2, f1, f3, f4, m1, m3, m4, a1, a3, a4]
          omega
        · rw [e2, e3, g1, g2, f3, f4, m3, m4, a3, a4]
          exact hca
        · intro hcon
          rcases e4 with he | he
          · rw [he, gB, f2, m2, a2, hps] at hcon
            simp at hcon
          · rw [he] at hcon
            simp at hcon
      · refine ⟨?_, ?_, ?_⟩
        · rw [e1, e2, e3, gA, g1, g2, f1, f3, f4, m1, m3, m4, a1, a3, a4]
          have hite : (if (Game.frameFinish
              (Game.frameGate (Game.frameFlag (Game.frameMove env
                (Game.frameAssignElapsed now s))))).gameState = GState.playing
              then (0:ℕ) else 1) = 1 := by
            rcases e4 with he | he
            · rw [he, gB]
              simp
            · rw [he]
              simp
          rw [hite]
          omega
        · rw [e2, e3, g1, g2, f3, f4, m3, m4, a3, a4]
          exact hca
        · intro hcon
          rw [e1, gA]
          omega
    · exact ⟨hb, hca, hq⟩
  | answer b =>
    by_cases hqs : s.gameState = .question
    · have hcount1 : 1 ≤ triggeredNotPassedCount s.gates := hq hqs
      have hbq : triggeredNotPassedCount s.gates + s.correctAnswers ≤
          s.totalQuestions + 1 := by
        rw [hqs] at hb
        simpa using hb
      obtain ⟨hpgT, hpgF⟩ := GateManager.passGateGo_spec s.gates
      simp only [Game.step, Game.answer, Game.endGame, Game.resumeGame, hqs, reduceIte]
      split_ifs with h1 h2 h3 h4 h5
      · have hc := hpgT h2
        refine ⟨?_, ?_, fun hcon => absurd hcon (by simp)⟩ <;> dsimp only <;>
          (try simp only [reduceIte]) <;> omega
      · have hc := hpgT h2
        refine ⟨?_, ?_, fun hcon => absurd hcon (by simp)⟩ <;> dsimp only <;>
          (try simp only [reduceIte]) <;> omega
      · have h2' : (GateManager.passGateGo s.gates).2 = false := by simpa using h2
        have hc := hpgF h2'
        refine ⟨?_, ?_, fun hcon => absurd hcon (by simp)⟩ <;> dsimp only <;>
          (try simp only [reduceIte]) <;> (try rw [hc.1]) <;> omega
      · have h2' : (GateManager.passGateGo s.gates).2 = false := by simpa using h2
        have hc := hpgF h2'
        refine ⟨?_, ?_, fun hcon => absurd hcon (by simp)⟩ <;> dsimp only <;>
          (try simp only [reduceIte]) <;> (try rw [hc.1]) <;> omega
      · refine ⟨?_, ?_, fun hcon => absurd hcon (by simp)⟩ <;> dsimp only <;>
          (try simp only [reduceIte]) <;> omega
      · refine ⟨?_, ?_, fun hcon => absurd hcon (by simp)⟩ <;> dsimp only <;>
          (try simp only [reduceIte]) <;> omega
    · refine C1Inv_of_fields_eq s _ ⟨hb, hca, hq⟩ ?_ ?_ ?_ ?_ <;>
        (simp [Game.step, Game.answer, hqs])

theorem GatesMono_refl (l : List Gate) : GatesMono l l := by
  refine ⟨rfl, ?_⟩
  intro i g g' h1 h2
  rw [h1] at h2
  obtain rfl := Option.some.inj h2
  exact ⟨fun t => t, fun t => t⟩

theorem GatesMono_cons (g g' : Gate) (l l' : List Gate)
    (hg : (g.triggered = true → g'.triggered = true) ∧
      (g.passed = true → g'.passed = true))
    (hm : GatesMono l l') : GatesMono (g :: l) (g' :: l') := by
  refine ⟨by simp [hm.1], ?_⟩
  intro i a a' h1 h2
  cases i with
  | zero =>
    rw [List.getElem?_cons_zero] at h1 h2
    obtain rfl := Option.some.inj h1
    obtain rfl := Option.some.inj h2
    exact hg
  | succ n =>
    rw [List.getElem?_cons_succ] at h1 h2
    exact hm.2 n a a' h1 h2

/-- The trigger scan never clears a `triggered` or `passed` flag. -/
theorem GateManager.checkCollisionGo_mono (px pz : ℚ) (gates : List Gate) :
    GatesMono gates (GateManager.checkCollisionGo px pz gates).2 := by
  induction gates with
  | nil => exact GatesMono_refl []
  | cons g rest ih =>
    simp only [GateManager.checkCollisionGo]
    split_ifs with h1 h2
    · exact GatesMono_cons g g _ _ ⟨fun t => t, fun t => t⟩ ih
    · exact GatesMono_cons g _ _ _ ⟨fun _ => rfl, fun t => t⟩ (GatesMono_refl rest)
    · exact GatesMono_cons g g _ _ ⟨fun t => t, fun t => t⟩ ih

/-- `passGate()` never clears a `triggered` or `passed` flag. -/
theorem GateManager.passGateGo_mono (gates : List Gate) :
    GatesMono gates (GateManager.passGateGo gates).1 := by
  induction gates with
  | nil => exact GatesMono_refl []
  | cons g rest ih =>
    simp only [GateManager.passGateGo]
    split_ifs with h1
    · exact GatesMono_cons g _ _ _ ⟨fun t => t, fun _ => rfl⟩ (GatesMono_refl rest)
    · exact GatesMono_cons g g _ _ ⟨fun t => t, fun t => t⟩ ih

theorem Game.frameGate_gates_mono (s : GameS) :
    GatesMono s.gates (Game.frameGate s).gates := by
  unfold Game.frameGate Game.pauseGame
  split_ifs with hg
  · cases (GateManager.checkCollision s.player.posX s.player.posZ s.gates).1 <;>
      exact GateManager.checkCollisionGo_mono _ _ _
  · exact GatesMono_refl _

/-- No event other than `startGame` (which resets for a new race) ever
reverses a gate's `triggered` or `passed` flag. -/
theorem Game.step_gatesMono (env : Env) (s : GameS) (e : GEvent)
    (he : ∀ d now, e ≠ .startGame d now) :
    GatesMono s.gates (Game.step env s e).gates := by
  cases e with
  | startGame d now => exact absurd rfl (he d now)
  | keyDown k =>
    have hg : (Game.step env s (.keyDown k)).gates = s.gates := by
      unfold Game.step Game.keyDown
      split_ifs <;> rfl
    rw [hg]
    exact GatesMono_refl _
  | keyUp k =>
    have hg : (Game.step env s (.keyUp k)).gates = s.gates := by
      unfold Game.step Game.keyUp
      split_ifs <;> rfl
    rw [hg]
    exact GatesMono_refl _
  | frame now =>
    unfold Game.step Game.frame
    split_ifs with hp
    · rw [(Game.frameFinish_raceFields _).1]
      have hflag : (Game.frameFlag (Game.frameMove env
          (Game.frameAssignElapsed now s))).gates = s.gates := by
        rw [(Game.frameFlag_raceFields _).1, (Game.frameMove_raceFields env _).1]
        rfl
      have hmono := Game.frameGate_gates_mono
        (Game.frameFlag (Game.frameMove env (Game.frameAssignElapsed now s)))
      rw [hflag] at hmono
      exact hmono
    · exact GatesMono_refl _
  | answer b =>
    simp only [Game.step, Game.answer, Game.endGame, Game.resumeGame]
    split_ifs <;> (try dsimp only) <;>
      first
        | exact GateManager.passGateGo_mono _
        | exact GatesMono_refl _

/-- C1 amended: (a) in every reachable state the number of
Triggered-but-not-Passed gates is at most the number of wrong answers so
far, plus one while a question is pending (`C1Inv`) — so with no wrong
answers at most one gate is Triggered-but-not-Passed; and (b) no event
except a `startGame` race reset ever reverses a gate's state: `triggered`
and `passed` flags are monotone. -/
theorem C1_gate_state_machine :
    (∀ (env : Env) (placements : List (ℚ × ℚ × ℚ × ObstacleKind)) (stream : List ℚ)
        (evs : List GEvent),
      C1Inv (Game.run env evs (Game.init env placements stream))) ∧
    (∀ (env : Env) (s : GameS) (e : GEvent),
      (∀ d now, e ≠ .startGame d now) →
      GatesMono s.gates (Game.step env s e).gates) := by
  constructor
  · intro env placements stream evs
    suffices h : ∀ s : GameS, C1Inv s → C1Inv (Game.run env evs s) by
      refine h _ ⟨?_, le_refl 0, fun hcon => by simp [Game.init] at hcon⟩
      show triggeredNotPassedCount
        (GateManager.createGates env
          (some (ObstacleManager.build env placements).obstacles) stream) + 0 ≤ 0 + _
      unfold GateManager.createGates
      rw [GateManager.createGatesGo_count]
      omega
    induction evs with
    | nil => exact fun s hs => hs
    | cons e rest ih => exact fun s hs => ih _ (Game.C1Inv_step env s e hs)
  · exact fun env s e he => Game.step_gatesMono env s e he

/-- Witness for `C1_gate_state_machine` on concrete inputs. -/
theorem C1_gate_state_machine_witness :
    C1Inv (Game.run envZero [] (Game.init envZero [] [])) ∧
    GatesMono gamePlaying.gates (Game.step envZero gamePlaying (.frame 0)).gates :=
  ⟨C1_gate_state_machine.1 envZero [] [] [],
   C1_gate_state_machine.2 envZero gamePlaying (.frame 0)
     (fun d now h => GEvent.noConfusion h)⟩


/-- Rationals agreeing in numerator and denominator are equal. -/
theorem eq_of_qAgree (a b : ℚ) (h : qAgree a b) : a = b := by
  have h' : a.num = b.num ∧ a.den = b.den := h
  obtain ⟨hn, hd⟩ := h'
  obtain ⟨n, d, z, r⟩ := a
  obtain ⟨n', d', z', r'⟩ := b
  change n = n' at hn
  change d = d' at hd
  subst hn
  subst hd
  rfl

/-- Skier states agreeing field-wise are equal. -/
theorem eq_of_skierAgree (a b : Skier) (h : skierAgree a b) : a = b := by
  have h' : qAgree a.posX b.posX ∧ qAgree a.posY b.posY ∧ qAgree a.posZ b.posZ ∧
      qAgree a.velX b.velX ∧ qAgree a.velY b.velY ∧ qAgree a.velZ b.velZ ∧
      qAgree a.turnAngle b.turnAngle ∧ qAgree a.angularVelocity b.angularVelocity ∧
      a.moveLeft = b.moveLeft ∧ a.moveRight = b.moveRight ∧
      a.moveForward = b.moveForward ∧ a.moveBackward = b.moveBackward ∧
      a.hasStarted = b.hasStarted ∧ a.isCrashed = b.isCrashed ∧
      a.isTumbling = b.isTumbling ∧ a.crashTimer = b.crashTimer ∧
      a.tumbleTimer = b.tumbleTimer ∧ a.recoveryPosition = b.recoveryPosition := h
  obtain ⟨h1, h2, h3, h4, h5, h6, h7, h8, h9, h10, h11, h12, h13, h14, h15, h16,
    h17, h18⟩ := h'
  have e1 := eq_of_qAgree _ _ h1
  have e2 := eq_of_qAgree _ _ h2
  have e3 := eq_of_qAgree _ _ h3
  have e4 := eq_of_qAgree _ _ h4
  have e5 := eq_of_qAgree _ _ h5
  have e6 := eq_of_qAgree _ _ h6
  have e7 := eq_of_qAgree _ _ h7
  have e8 := eq_of_qAgree _ _ h8
  cases a
  cases b
  simp only [Skier.mk.injEq]
  exact ⟨e1, e2, e3, e4, e5, e6, e7, e8, h9, h10, h11, h12, h13, h14, h15, h16,
    h17, h18⟩

/-- A game state agreeing field-wise with a `GameSData` record, and whose
obstacle manager is the given one, is the rebuilt state. -/
theorem Game.eq_of_agrees (s : GameS) (d : GameSData) (om' : ObstacleManager)
    (h : stateAgrees s d) (ho : s.om = om') : s = mkGameS d om' := by
  have h' : s.gameState = d.gameState ∧ qAgree s.score d.score ∧
      s.correctAnswers = d.correctAnswers ∧ s.totalQuestions = d.totalQuestions ∧
      s.startTime = d.startTime ∧ s.elapsedTime = d.elapsedTime ∧
      s.difficulty = d.difficulty ∧ s.isPaused = d.isPaused ∧
      skierAgree s.player d.player ∧ s.gates = d.gates ∧
      s.gatesPassed = d.gatesPassed := h
  obtain ⟨h1, h2, h3, h4, h5, h6, h7, h8, h9, h10, h11⟩ := h'
  have e2 := eq_of_qAgree _ _ h2
  have e9 := eq_of_skierAgree _ _ h9
  subst ho
  cases s
  cases d
  simp only [mkGameS, GameS.mk.injEq]
  exact ⟨h1, e2, h3, h4, h5, h6, h7, h8, e9, h10, h11, trivial⟩

/-- The obstacle manager is constant along any run. -/
theorem Game.run_om (env : Env) (evs : List GEvent) (s : GameS) :
    (Game.run env evs s).om = s.om := by
  induction evs generalizing s with
  | nil => rfl
  | cons e rest ih =>
    show (Game.run env rest (Game.step env s e)).om = s.om
    rw [ih (Game.step env s e), Game.step_om]

/-- Running a concatenation runs the pieces in order. -/
theorem Game.run_append (env : Env) (a b : List GEvent) (s : GameS) :
    Game.run env (a ++ b) s = Game.run env b (Game.run env a s) := by
  simp [Game.run, List.foldl_append]

theorem Game.runChunkA :
    Game.run envZero c1ChunkA (Game.init envZero oneTreePlacement raceStream)
      = mAState := by
  show _ = mkGameS mAData (ObstacleManager.build envZero oneTreePlacement)
  apply Game.eq_of_agrees
  · with_unfolding_all decide
  · rw [Game.run_om]
    with_unfolding_all rfl

theorem Game.runChunkB :
    Game.run envZero c1ChunkB mAState
      = mBState := by
  show _ = mkGameS mBData (ObstacleManager.build envZero oneTreePlacement)
  apply Game.eq_of_agrees
  · with_unfolding_all decide
  · rw [Game.run_om]
    with_unfolding_all rfl

theorem Game.runChunkC :
    Game.run envZero c1ChunkC mBState
      = mCState := by
  show _ = mkGameS mCData (ObstacleManager.build envZero oneTreePlacement)
  apply Game.eq_of_agrees
  · with_unfolding_all decide
  · rw [Game.run_om]
    with_unfolding_all rfl

theorem Game.runChunkD :
    Game.run envZero c1ChunkD mCState
      = mDState := by
  show _ = mkGameS mDData (ObstacleManager.build envZero oneTreePlacement)
  apply Game.eq_of_agrees
  · with_unfolding_all decide
  · rw [Game.run_om]
    with_unfolding_all rfl

theorem Game.runChunkE :
    Game.run envZero c1ChunkE mDState
      = mEState := by
  show _ = mkGameS mEData (ObstacleManager.build envZero oneTreePlacement)
  apply Game.eq_of_agrees
  · with_unfolding_all decide
  · rw [Game.run_om]
    with_unfolding_all rfl

theorem Game.runChunkF :
    Game.run envZero c1ChunkF mEState
      = mFState := by
  show _ = mkGameS mFData (ObstacleManager.build envZero oneTreePlacement)
  apply Game.eq_of_agrees
  · with_unfolding_all decide
  · rw [Game.run_om]
    with_unfolding_all rfl

theorem Game.runAltA :
    Game.run envZero c1ChunkA (Game.init envZero oneTreePlacement raceStreamAlt)
      = qAState := by
  show _ = mkGameS qAData (ObstacleManager.build envZero oneTreePlacement)
  apply Game.eq_of_agrees
  · with_unfolding_all decide
  · rw [Game.run_om]
    with_unfolding_all rfl

theorem Game.runAltB :
    Game.run envZero c1ChunkB qAState
      = qBState := by
  show _ = mkGameS qBData (ObstacleManager.build envZero oneTreePlacement)
  apply Game.eq_of_agrees
  · with_unfolding_all decide
  · rw [Game.run_om]
    with_unfolding_all rfl

theorem Game.runAltC :
    Game.run envZero c1ChunkC qBState
      = qCState := by
  show _ = mkGameS qCData (ObstacleManager.build envZero oneTreePlacement)
  apply Game.eq_of_agrees
  · with_unfolding_all decide
  · rw [Game.run_om]
    with_unfolding_all rfl

/-- C1 counterexample: start a race on the honest-zero environment, roll
straight into gate 0, answer the question wrongly (the game resumes
without `passGate()`), and roll into gate 1: two gates are now
Triggered-but-not-Passed, refuting the "at most one" reading. -/
theorem raceEvents_chunks :
    raceEvents
      = c1ChunkA ++ (c1ChunkB ++ (c1ChunkC ++ (c1ChunkD ++ (c1ChunkE
          ++ (c1ChunkF ++ c1ChunkG))))) := by
  with_unfolding_all decide

theorem Game.runChunkG_count :
    triggeredNotPassedCount (Game.run envZero c1ChunkG mFState).gates = 2 := by
  with_unfolding_all decide

theorem C1_counterexample :
    triggeredNotPassedCount
      (Game.run envZero raceEvents
        (Game.init envZero oneTreePlacement raceStream)).gates = 2 := by
  rw [raceEvents_chunks]
  simp only [Game.run_append]
  rw [Game.runChunkA, Game.runChunkB, Game.runChunkC, Game.runChunkD, Game.runChunkE,
    Game.runChunkF, Game.runChunkG_count]

/-- C2 amended: the per-frame simulation itself is deterministic — two runs
that build the same course (equal `createGates` output, i.e. equal
`Math.random()` draws during course construction) produce identical
trajectories for the same event sequence. -/
theorem C2_deterministic_given_course (env : Env)
    (placements : List (ℚ × ℚ × ℚ × ObstacleKind)) (stream1 stream2 : List ℚ)
    (evs : List GEvent)
    (hg : GateManager.createGates env
          (some (ObstacleManager.build env placements).obstacles) stream1
        = GateManager.createGates env
          (some (ObstacleManager.build env placements).obstacles) stream2) :
    Game.runTraj env evs (Game.init env placements stream1)
      = Game.runTraj env evs (Game.init env placements stream2) := by
  have hinit : Game.init env placements stream1
      = Game.init env placements stream2 := by
    simp only [Game.init]
    rw [hg]
  rw [hinit]

/-- Witness for `C2_deterministic_given_course` on concrete inputs. -/
theorem C2_deterministic_given_course_witness :
    Game.runTraj envZero c2Events (Game.init envZero oneTreePlacement raceStream)
      = Game.runTraj envZero c2Events
          (Game.init envZero oneTreePlacement raceStream) :=
  C2_deterministic_given_course envZero oneTreePlacement raceStream raceStream
    c2Events rfl

/-- C2 counterexample: `createGates` consumes the unseeded global
`Math.random()`, so two runs of the same event sequence with different
course-construction draws (differing only in gate 0's base-X draw)
produce different skier trajectories — here, different final z. -/
theorem c2Events_chunks :
    c2Events = c1ChunkA ++ (c1ChunkB ++ (c1ChunkC ++ c2ChunkD)) := by
  with_unfolding_all decide

theorem Game.runC2D_ne :
    (Game.run envZero c2ChunkD mCState).player.posZ
      ≠ (Game.run envZero c2ChunkD qCState).player.posZ := by
  with_unfolding_all decide

theorem C2_counterexample :
    (Game.run envZero c2Events
        (Game.init envZero oneTreePlacement raceStream)).player.posZ
      ≠ (Game.run envZero c2Events
          (Game.init envZero oneTreePlacement raceStreamAlt)).player.posZ := by
  rw [c2Events_chunks]
  simp only [Game.run_append]
  rw [Game.runChunkA, Game.runChunkB, Game.runChunkC,
    Game.runAltA, Game.runAltB, Game.runAltC]
  exact Game.runC2D_ne